import Mathlib

/-!
Shallow embedding of the three trading engines of this repository
(`src/strategies/aggressive_v1.py`, `src/strategies/conservative_v1.py`,
`src/strategies/flip_v2.py`) and proofs of the frozen claims about them.

Conventions of the embedding:
* Python floats are modelled as exact rationals (`ℚ`); Python ints as `ℕ`.
* A market-data dict is a `MetricsSnapshot` of optional fields; each
  `data.get(key, default)` in the source becomes `field.getD default` at the
  corresponding call site, with the call site's own default.
* `random.random()` / `random.uniform(a, b)` are modelled by an explicit draw
  stream `g : ℕ → ℚ` together with a cursor `i : ℕ`; each call to the Python
  RNG consumes `g i` and advances the cursor, and `random.uniform a b` is
  `a + g i * (b - a)`.
* `datetime.utcnow()` is modelled as an explicit clock input `now : ℕ` passed
  to each `trade` call and stored in the appended history record, so that the
  wall clock is a visible external input of the transition.
* The Python methods return formatted strings; here the distinct return
  statements are modelled by the `Outcome` tagged union (one `Blocked` reason
  per distinct early-return site, `Win`/`Loss` carrying the numeric payload
  that the source computes and interpolates).
* Each mutating method becomes a pure function from the receiver state to the
  updated state (plus its return value), field for field after the source.
-/

/-- Market regime label.  The source keys regime tables by string; every
string other than the five named regimes is treated identically to
`'unknown'` by each table and branch, so a six-variant enum is faithful. -/
inductive Regime
  | trending_bull
  | trending_bear
  | high_volatility
  | low_volatility
  | sideways
  | unknown
deriving DecidableEq

/-- The external signal bundle consumed per trade decision (a Python dict in
the source; absent keys fall back to per-call-site defaults). -/
structure MetricsSnapshot where
  momentum : Option ℚ := none
  trend_strength : Option ℚ := none
  breakout_score : Option ℚ := none
  volatility : Option ℚ := none
  volume_spike : Option Bool := none
  volume_ratio : Option ℚ := none
  ai_confidence : Option ℚ := none
  regime : Option Regime := none
  rsi : Option ℚ := none
  confluence : Option ℚ := none
  support_resistance : Option ℚ := none
  spread : Option ℚ := none
  volume : Option ℚ := none
  volume_profile : Option ℚ := none
  position_size : Option ℚ := none
deriving DecidableEq

/-- Which early-return ("blocked") site of a `trade` method fired. -/
inductive BlockReason
  | dailyLimit
  | targetHit
  | drawdownStop
  | signalRejected
deriving DecidableEq

/-- Result of one `trade` call: one of the blocked early returns, or the WIN
return (size, profit amount, profit pct), or the LOSS return (size, loss
amount, loss pct). -/
inductive Outcome
  | blocked (reason : BlockReason)
  | win (size profit profit_pct : ℚ)
  | loss (size lossAmount loss_pct : ℚ)
deriving DecidableEq

def Outcome.isBlocked : Outcome → Bool
  | .blocked _ => true
  | _ => false

def Outcome.isWin : Outcome → Bool
  | .win _ _ _ => true
  | _ => false

def Outcome.isLoss : Outcome → Bool
  | .loss _ _ _ => true
  | _ => false

/-- One entry of `AggressiveBot.trade_history`: the dict appended by the WIN
branch carries (timestamp, size, profit, profit_pct, confidence, regime,
streak, hot_streak_mult); the LOSS branch's dict lacks `hot_streak_mult`. -/
inductive ATradeRecord
  | win (timestamp : ℕ) (size profit profit_pct confidence : ℚ)
      (regime : Regime) (streak : ℕ) (hot_streak_mult : ℚ)
  | loss (timestamp : ℕ) (size lossAmount loss_pct confidence : ℚ)
      (regime : Regime) (streak : ℕ)
deriving DecidableEq

/-- One entry of `ConservativeBot.trade_history` (no streak fields: the
conservative bot tracks no win/loss streak counters). -/
inductive CTradeRecord
  | win (timestamp : ℕ) (size profit profit_pct confidence : ℚ) (regime : Regime)
  | loss (timestamp : ℕ) (size lossAmount loss_pct confidence : ℚ) (regime : Regime)
deriving DecidableEq

def CTradeRecord.isWinRec : CTradeRecord → Bool
  | .win _ _ _ _ _ _ => true
  | .loss _ _ _ _ _ _ => false

/-- One entry of `ConservativeBot.daily_history`, appended by
`end_of_day_summary` (the `date` string is modelled by the clock input). -/
structure CDailySummary where
  date : ℕ
  ret : ℚ
  profit : ℚ
  trades : ℕ
  target_achieved : Bool
  safety_violations : ℕ
deriving DecidableEq

/-- State of `AggressiveBot` (`src/strategies/aggressive_v1.py`), field for
field after `__init__`.  `mode` is a stored string never read by the logic
and is omitted. -/
structure AggressiveBot where
  capital : ℚ
  initial_capital : ℚ
  leverage : ℚ
  dd_limit : ℚ
  max_position_size : ℚ
  risk_multiplier : ℚ
  target_return : ℚ
  stop_loss : ℚ
  take_profit : ℚ
  max_daily_trades : ℕ
  emergency_stop_dd : ℚ
  size_reduction_dd : ℚ
  use_leverage_scaling : Bool
  momentum_trading : Bool
  breakout_focus : Bool
  daily_trades : ℕ
  consecutive_wins : ℕ
  consecutive_losses : ℕ
  max_consecutive_wins : ℕ
  trade_history : List ATradeRecord
  peak_capital : ℚ
  daily_pnl : ℚ
  hot_streak_multiplier : ℚ
deriving DecidableEq

/-- `AggressiveBot.__init__` with all keyword arguments left at their
documented defaults. -/
def AggressiveBot.mkDefault (capital : ℚ) : AggressiveBot where
  capital := capital
  initial_capital := capital
  leverage := 3
  dd_limit := 0.18
  max_position_size := 0.15
  risk_multiplier := 1.5
  target_return := 0.06
  stop_loss := 0.02
  take_profit := 0.10
  max_daily_trades := 15
  emergency_stop_dd := 0.15
  size_reduction_dd := 0.12
  use_leverage_scaling := true
  momentum_trading := true
  breakout_focus := true
  daily_trades := 0
  consecutive_wins := 0
  consecutive_losses := 0
  max_consecutive_wins := 0
  trade_history := []
  peak_capital := capital
  daily_pnl := 0
  hot_streak_multiplier := 1

/-- The expression `(self.initial_capital - self.capital) / self.initial_capital`
recomputed at several places in every engine. -/
def AggressiveBot.current_dd (s : AggressiveBot) : ℚ :=
  (s.initial_capital - s.capital) / s.initial_capital

/-- `AggressiveBot.signal_ok` (lines 41-82).  Reads only the snapshot; the
`sideways` branch retightens `momentum_ok`/`breakout_ok`, the
`low_volatility` branch early-returns `False` when volatility < 0.03, and
`regime_ok` is `True` on every path. -/
def AggressiveBot.signal_ok (d : MetricsSnapshot) : Bool :=
  let momentum := d.momentum.getD 0.5
  let trend_strength := d.trend_strength.getD 0.5
  let breakout_score := d.breakout_score.getD 0.5
  let volatility := d.volatility.getD 0.1
  let volume_spike := d.volume_spike.getD false
  let ai_confidence := d.ai_confidence.getD 0.5
  let regime := d.regime.getD .unknown
  let momentum_ok :=
    if regime = Regime.sideways then |momentum| > 0.75 else |momentum| > 0.6
  let trend_ok := trend_strength > 0.55
  let breakout_ok :=
    if regime = Regime.sideways then breakout_score > 0.8 else breakout_score > 0.7
  let vol_ok := volatility > 0.04
  let confidence_ok := ai_confidence > 0.6
  let volume_ok := volume_spike ∨ d.volume_ratio.getD 1 > 1.3
  let rsi := d.rsi.getD 50
  let rsi_extreme := rsi < 25 ∨ rsi > 75
  let confluence_ok := d.confluence.getD 0.5 > 0.65
  if regime = Regime.low_volatility ∧ volatility < 0.03 then false
  else
    decide (momentum_ok ∧ trend_ok ∧ breakout_ok ∧ vol_ok ∧ confidence_ok ∧
      volume_ok ∧ rsi_extreme ∧ confluence_ok)

/-- The `regime_leverage` table of `AggressiveBot.calculate_position_size`
(`.get(regime, 1.0)`). -/
def AggressiveBot.regime_leverage : Regime → ℚ
  | .trending_bull => 1.3
  | .trending_bear => 1.2
  | .high_volatility => 1.4
  | .sideways => 0.8
  | .low_volatility => 0.9
  | .unknown => 1

/-- `AggressiveBot.calculate_position_size` up to (but excluding) the final
min/max clamp: returns the updated state (the method writes
`hot_streak_multiplier`) and the unclamped product of all multipliers. -/
def AggressiveBot.position_factors (s : AggressiveBot) (d : MetricsSnapshot) :
    AggressiveBot × ℚ :=
  let base_size := s.capital * s.max_position_size
  let base_size :=
    match d.position_size with
    | some ps => max base_size (ps * s.capital)
    | none => base_size
  let confidence := d.ai_confidence.getD 0.5
  let confidence_mult := 0.7 + confidence * 0.6
  let momentum := |d.momentum.getD 0.5|
  let momentum_mult := 0.8 + momentum * 0.4
  let hot :=
    if s.consecutive_wins ≥ 3 then
      min 2 (1 + (s.consecutive_wins : ℚ) * 0.1)
    else
      max 1 (s.hot_streak_multiplier * 0.95)
  let cold_streak_mult :=
    if s.consecutive_losses ≥ 2 then
      max 0.3 (1 - (s.consecutive_losses : ℚ) * 0.15)
    else 1
  let leverage_mult :=
    if s.use_leverage_scaling then
      let volatility := d.volatility.getD 0.1
      let vol_leverage := min 1.5 (1 + volatility * 2)
      vol_leverage * AggressiveBot.regime_leverage (d.regime.getD .unknown)
    else 1
  let size_reduction_factor := if s.current_dd > s.size_reduction_dd then 0.5 else 1
  ({ s with hot_streak_multiplier := hot },
    base_size * confidence_mult * momentum_mult * hot * cold_streak_mult *
      leverage_mult * size_reduction_factor)

/-- `AggressiveBot.calculate_position_size` (lines 84-148): the factor
product of `position_factors`, then `min` with 20% and `max` with 2% of
capital. -/
def AggressiveBot.calculate_position_size (s : AggressiveBot) (d : MetricsSnapshot) :
    AggressiveBot × ℚ :=
  let p := AggressiveBot.position_factors s d
  (p.1, max (min p.2 (s.capital * 0.20)) (s.capital * 0.02))

/-- The `regime_success_adj` table of `AggressiveBot.trade`. -/
def AggressiveBot.regime_success_adj : Regime → ℚ
  | .trending_bull => 1.2
  | .trending_bear => 1.15
  | .high_volatility => 1.1
  | .sideways => 0.9
  | .low_volatility => 0.85
  | .unknown => 1

/-- The `regime_profit_mult` table of `AggressiveBot.trade`'s WIN branch. -/
def AggressiveBot.regime_profit_mult : Regime → ℚ
  | .trending_bull => 1.5
  | .trending_bear => 1.3
  | .high_volatility => 1.6
  | .sideways => 1
  | .low_volatility => 0.9
  | .unknown => 1

/-- The `regime_loss_adj` table of `AggressiveBot.trade`'s LOSS branch. -/
def AggressiveBot.regime_loss_adj : Regime → ℚ
  | .trending_bull => 0.8
  | .trending_bear => 0.9
  | .high_volatility => 1.4
  | .sideways => 1.2
  | .low_volatility => 0.7
  | .unknown => 1

/-- `AggressiveBot.trade` (lines 150-286).  `g`/`i` model the RNG draw
stream and its cursor (`random.random()` reads `g i`; `random.uniform a b`
reads the next draw `u` as `a + u * (b - a)`); `now` models
`datetime.utcnow()` for the appended history record.  Returns the updated
state, the outcome, and the advanced cursor. -/
def AggressiveBot.trade (s : AggressiveBot) (d : MetricsSnapshot) (g : ℕ → ℚ)
    (i : ℕ) (now : ℕ) : AggressiveBot × Outcome × ℕ :=
  if s.daily_trades ≥ s.max_daily_trades then (s, .blocked .dailyLimit, i)
  else if s.current_dd > s.dd_limit then (s, .blocked .drawdownStop, i)
  else if ¬ AggressiveBot.signal_ok d then (s, .blocked .signalRejected, i)
  else
    let sized := AggressiveBot.calculate_position_size s d
    let s := sized.1
    let trade_size := sized.2
    let confidence := d.ai_confidence.getD 0.5
    let momentum := |d.momentum.getD 0.5|
    let trend_strength := d.trend_strength.getD 0.5
    let breakout_score := d.breakout_score.getD 0.5
    let regime := d.regime.getD .unknown
    let base_success_prob := (confidence + momentum + trend_strength + breakout_score) / 4
    let streak_bonus := min 0.15 ((s.consecutive_wins : ℚ) * 0.03)
    let final_success_prob :=
      (base_success_prob + streak_bonus) * AggressiveBot.regime_success_adj regime
    let final_success_prob := min 0.80 (max 0.25 final_success_prob)
    if g i < final_success_prob then
      let base_profit_pct := 0.05 + g (i + 1) * (0.15 - 0.05)
      let confidence_bonus := 1 + (confidence - 0.5) * 0.6
      let momentum_bonus := 1 + momentum * 0.4
      let hot_streak_bonus := 1 + (s.consecutive_wins : ℚ) * 0.05
      let final_profit_pct :=
        min 0.18 (base_profit_pct * confidence_bonus * momentum_bonus *
          hot_streak_bonus * AggressiveBot.regime_profit_mult regime)
      let profit := trade_size * final_profit_pct
      let capital := s.capital + profit
      let wins := s.consecutive_wins + 1
      let peak := if capital > s.peak_capital then capital else s.peak_capital
      let rec1 := ATradeRecord.win now trade_size profit final_profit_pct
        confidence regime wins s.hot_streak_multiplier
      ({ s with
          capital := capital
          daily_pnl := s.daily_pnl + profit
          consecutive_wins := wins
          consecutive_losses := 0
          max_consecutive_wins := max s.max_consecutive_wins wins
          peak_capital := peak
          daily_trades := s.daily_trades + 1
          trade_history := s.trade_history ++ [rec1] },
        .win trade_size profit final_profit_pct, i + 2)
    else
      let adjusted_loss_pct := s.stop_loss * AggressiveBot.regime_loss_adj regime
      let adjusted_loss_pct := min 0.06 adjusted_loss_pct
      let lossAmt := trade_size * adjusted_loss_pct
      let losses := s.consecutive_losses + 1
      let rec1 := ATradeRecord.loss now trade_size lossAmt adjusted_loss_pct
        confidence regime losses
      ({ s with
          capital := s.capital - lossAmt
          daily_pnl := s.daily_pnl - lossAmt
          consecutive_losses := losses
          consecutive_wins := 0
          hot_streak_multiplier := max 1 (s.hot_streak_multiplier * 0.9)
          daily_trades := s.daily_trades + 1
          trade_history := s.trade_history ++ [rec1] },
        .loss trade_size lossAmt adjusted_loss_pct, i + 1)

/-- `AggressiveBot.reset_daily_stats` (lines 288-291). -/
def AggressiveBot.reset_daily_stats (s : AggressiveBot) : AggressiveBot :=
  { s with daily_trades := 0, daily_pnl := 0 }

/-- Feeding a list of (snapshot, clock) pairs to `AggressiveBot.trade` in
order, threading state and RNG cursor; returns the final state, the outcome
sequence, and the final cursor. -/
def AggressiveBot.run (s : AggressiveBot) (l : List (MetricsSnapshot × ℕ))
    (g : ℕ → ℚ) (i : ℕ) : AggressiveBot × List Outcome × ℕ :=
  match l with
  | [] => (s, [], i)
  | (d, t) :: rest =>
    let step := AggressiveBot.trade s d g i t
    let tail := AggressiveBot.run step.1 rest g step.2.2
    (tail.1, step.2.1 :: tail.2.1, tail.2.2)

/-- State of `ConservativeBot` (`src/strategies/conservative_v1.py`), field
for field after `__init__`.  The three boolean safety flags are stored but
never read by the logic and are omitted. -/
structure ConservativeBot where
  capital : ℚ
  initial_capital : ℚ
  daily_target : ℚ
  risk_cap : ℚ
  max_drawdown : ℚ
  stop_loss : ℚ
  max_daily_trades : ℕ
  min_confidence : ℚ
  min_win_rate_required : ℚ
  profit_target : ℚ
  emergency_stop_dd : ℚ
  size_reduction_dd : ℚ
  daily_trades : ℕ
  daily_profit : ℚ
  trade_history : List CTradeRecord
  daily_history : List CDailySummary
  consecutive_profitable_days : ℕ
  total_profitable_days : ℕ
  peak_capital : ℚ
  safety_violations : ℕ
deriving DecidableEq

/-- `ConservativeBot.__init__` with all keyword arguments left at their
documented defaults. -/
def ConservativeBot.mkDefault (capital : ℚ) : ConservativeBot where
  capital := capital
  initial_capital := capital
  daily_target := 0.01
  risk_cap := 0.015
  max_drawdown := 0.03
  stop_loss := 0.005
  max_daily_trades := 4
  min_confidence := 0.8
  min_win_rate_required := 0.75
  profit_target := 0.012
  emergency_stop_dd := 0.025
  size_reduction_dd := 0.02
  daily_trades := 0
  daily_profit := 0
  trade_history := []
  daily_history := []
  consecutive_profitable_days := 0
  total_profitable_days := 0
  peak_capital := capital
  safety_violations := 0

def ConservativeBot.current_dd (s : ConservativeBot) : ℚ :=
  (s.initial_capital - s.capital) / s.initial_capital

/-- The guarded expression `self.daily_profit / self.capital if self.capital > 0
else 0` computed by `trade`, `calculate_position_size`, `end_of_day_summary`
and `get_status`. -/
def ConservativeBot.daily_return (s : ConservativeBot) : ℚ :=
  if s.capital > 0 then s.daily_profit / s.capital else 0

/-- `ConservativeBot.can_trade` (lines 40-78): the all-of-ten conjunction;
the `high_volatility` early return is subsumed by `regime_ok` (that regime is
not in the allowed list), and `min_confidence` is read from the engine
state. -/
def ConservativeBot.can_trade (s : ConservativeBot) (d : MetricsSnapshot) : Bool :=
  let spread := d.spread.getD 0.001
  let volume := d.volume.getD 1000000
  let volatility := d.volatility.getD 0.1
  let ai_confidence := d.ai_confidence.getD 0.5
  let regime := d.regime.getD .unknown
  let spread_ok := spread < 0.002
  let volume_ok := volume > 1000000
  let vol_ok := 0.01 < volatility ∧ volatility < 0.08
  let confidence_ok := ai_confidence ≥ s.min_confidence
  let regime_ok := regime = Regime.trending_bull ∨ regime = Regime.low_volatility ∨
    regime = Regime.sideways
  let sr_ok := d.support_resistance.getD 0.5 > 0.7
  let trend_ok := d.trend_strength.getD 0.5 > 0.6
  let confluence_ok := d.confluence.getD 0.5 > 0.75
  let rsi := d.rsi.getD 50
  let rsi_ok := 35 < rsi ∧ rsi < 65
  let volume_profile_ok := d.volume_profile.getD 1 > 0.8
  decide (spread_ok ∧ volume_ok ∧ vol_ok ∧ confidence_ok ∧ regime_ok ∧
    sr_ok ∧ trend_ok ∧ confluence_ok ∧ rsi_ok ∧ volume_profile_ok)

/-- The winning-streak scaling block of
`ConservativeBot.calculate_position_size` (lines 115-128): the win rate over
the last-ten slice `trade_history[-10:]` selects a multiplier. -/
def ConservativeBot.streak_mult (history : List CTradeRecord) : ℚ :=
  let recent := history.drop (history.length - 10)
  if recent.isEmpty then 1
  else
    let recent_win_rate :=
      ((recent.filter fun t => t.isWinRec).length : ℚ) / (recent.length : ℚ)
    if recent_win_rate ≥ 0.8 then 1.1
    else if recent_win_rate ≥ 0.7 then 1.05
    else 0.9

/-- `ConservativeBot.calculate_position_size` (lines 80-144).  Pure: the
conservative sizer mutates nothing. -/
def ConservativeBot.calculate_position_size (s : ConservativeBot)
    (d : MetricsSnapshot) : ℚ :=
  let base_size := s.capital * 0.01
  let base_size :=
    match d.position_size with
    | some ps => min (min base_size (ps * s.capital)) (s.capital * s.risk_cap)
    | none => base_size
  let confidence := d.ai_confidence.getD 0.5
  let confidence_mult :=
    if confidence > 0.8 then 1 + (confidence - 0.8) * 0.5 else 0.8
  let dd_protection := max 0.3 (1 - s.current_dd * 5)
  let daily_mult :=
    if s.daily_return ≥ s.daily_target * 0.8 then 0.5
    else if s.daily_return ≥ s.daily_target * 0.6 then 0.7
    else 1
  let peak_distance :=
    if s.peak_capital > 0 then (s.peak_capital - s.capital) / s.peak_capital else 0
  let peak_mult := max 0.4 (1 - peak_distance * 2)
  let streak_mult := ConservativeBot.streak_mult s.trade_history
  let size_reduction_factor := if s.current_dd > s.size_reduction_dd then 0.4 else 1
  let final_size := base_size * confidence_mult * dd_protection * daily_mult *
    peak_mult * streak_mult * size_reduction_factor
  max (min final_size (s.capital * 0.02)) (s.capital * 0.003)

/-- The `regime_adj` success table of `ConservativeBot.trade`
(`.get(regime, 0.9)`). -/
def ConservativeBot.regime_adj : Regime → ℚ
  | .trending_bull => 1.1
  | .low_volatility => 1.15
  | .sideways => 1
  | .trending_bear => 0.95
  | .high_volatility => 0
  | .unknown => 0.9

/-- The `regime_profit_adj` table of `ConservativeBot.trade`'s WIN branch
(`.get(regime, 1.0)`; `high_volatility` is absent from the dict and falls to
the default). -/
def ConservativeBot.regime_profit_adj : Regime → ℚ
  | .trending_bull => 1.15
  | .low_volatility => 1.1
  | .sideways => 1
  | .trending_bear => 1.05
  | .high_volatility => 1
  | .unknown => 1

/-- The `regime_loss_adj` table of `ConservativeBot.trade`'s LOSS branch
(`.get(regime, 1.0)`). -/
def ConservativeBot.regime_loss_adj : Regime → ℚ
  | .trending_bull => 0.8
  | .low_volatility => 0.7
  | .sideways => 1
  | .trending_bear => 0.9
  | .high_volatility => 1
  | .unknown => 1

/-- `ConservativeBot.trade` (lines 146-269).  Note the gate-rejected path
increments `safety_violations` before returning, and the LOSS branch draws
no second random value. -/
def ConservativeBot.trade (s : ConservativeBot) (d : MetricsSnapshot) (g : ℕ → ℚ)
    (i : ℕ) (now : ℕ) : ConservativeBot × Outcome × ℕ :=
  if s.daily_trades ≥ s.max_daily_trades then (s, .blocked .dailyLimit, i)
  else if s.daily_return ≥ s.daily_target then (s, .blocked .targetHit, i)
  else if s.current_dd > s.max_drawdown then (s, .blocked .drawdownStop, i)
  else if ¬ s.can_trade d then
    ({ s with safety_violations := s.safety_violations + 1 },
      .blocked .signalRejected, i)
  else
    let position_size := s.calculate_position_size d
    let confidence := d.ai_confidence.getD 0.5
    let trend_strength := d.trend_strength.getD 0.5
    let support_resistance := d.support_resistance.getD 0.5
    let regime := d.regime.getD .unknown
    let base_success_prob := 0.65 + confidence * 0.2
    let trend_bonus := (trend_strength - 0.5) * 0.1
    let sr_bonus := (support_resistance - 0.5) * 0.1
    let final_success_prob :=
      (base_success_prob + trend_bonus + sr_bonus) * ConservativeBot.regime_adj regime
    let final_success_prob := min 0.88 (max 0.60 final_success_prob)
    if g i < final_success_prob then
      let base_profit_pct := 0.008 + g (i + 1) * (0.020 - 0.008)
      let confidence_bonus := 1 + (confidence - 0.75) * 0.2
      let final_profit_pct :=
        min 0.02 (base_profit_pct * confidence_bonus *
          ConservativeBot.regime_profit_adj regime)
      let profit := position_size * final_profit_pct
      let capital := s.capital + profit
      let peak := if capital > s.peak_capital then capital else s.peak_capital
      let rec1 := CTradeRecord.win now position_size profit final_profit_pct
        confidence regime
      ({ s with
          capital := capital
          daily_profit := s.daily_profit + profit
          peak_capital := peak
          daily_trades := s.daily_trades + 1
          trade_history := s.trade_history ++ [rec1] },
        .win position_size profit final_profit_pct, i + 2)
    else
      let adjusted_loss_pct :=
        min 0.008 (s.stop_loss * ConservativeBot.regime_loss_adj regime)
      let lossAmt := position_size * adjusted_loss_pct
      let rec1 := CTradeRecord.loss now position_size lossAmt adjusted_loss_pct
        confidence regime
      ({ s with
          capital := s.capital - lossAmt
          daily_profit := s.daily_profit - lossAmt
          daily_trades := s.daily_trades + 1
          trade_history := s.trade_history ++ [rec1] },
        .loss position_size lossAmt adjusted_loss_pct, i + 1)

/-- `ConservativeBot.end_of_day_summary` (lines 271-299): appends the daily
rollup, updates the profitable-day counters, and zeroes `daily_profit`,
`daily_trades` and `safety_violations`.  Returns the state and the appended
summary. -/
def ConservativeBot.end_of_day_summary (s : ConservativeBot) (today : ℕ) :
    ConservativeBot × CDailySummary :=
  let daily_ret := s.daily_return
  let cpd := if s.daily_profit > 0 then s.consecutive_profitable_days + 1 else 0
  let tpd := if s.daily_profit > 0 then s.total_profitable_days + 1
    else s.total_profitable_days
  let summary : CDailySummary :=
    { date := today
      ret := daily_ret
      profit := s.daily_profit
      trades := s.daily_trades
      target_achieved := decide (daily_ret ≥ s.daily_target)
      safety_violations := s.safety_violations }
  ({ s with
      consecutive_profitable_days := cpd
      total_profitable_days := tpd
      daily_history := s.daily_history ++ [summary]
      daily_profit := 0
      daily_trades := 0
      safety_violations := 0 },
    summary)

/-- Feeding a list of (snapshot, clock) pairs to `ConservativeBot.trade` in
order. -/
def ConservativeBot.run (s : ConservativeBot) (l : List (MetricsSnapshot × ℕ))
    (g : ℕ → ℚ) (i : ℕ) : ConservativeBot × List Outcome × ℕ :=
  match l with
  | [] => (s, [], i)
  | (d, t) :: rest =>
    let step := ConservativeBot.trade s d g i t
    let tail := ConservativeBot.run step.1 rest g step.2.2
    (tail.1, step.2.1 :: tail.2.1, tail.2.2)

/-- State of `FlipBotV2` (`src/strategies/flip_v2.py`), field for field after
`__init__`.  `risk_mode` is a stored string never read by the logic and is
omitted; `daily_target`, `max_position_size` and `stop_loss` are hardcoded
(not keyword arguments).  `trade_history` is initialised to the empty list
and never appended to by any method of the class. -/
structure FlipBotV2 where
  capital : ℚ
  initial_capital : ℚ
  daily_target : ℚ
  max_dd : ℚ
  consecutive_losses : ℕ
  daily_trades : ℕ
  max_daily_trades : ℕ
  max_position_size : ℚ
  stop_loss : ℚ
  trade_history : List Unit
  peak_capital : ℚ
  current_streak : ℕ
  best_streak : ℕ
deriving DecidableEq

/-- `FlipBotV2.__init__` with all keyword arguments left at their documented
defaults. -/
def FlipBotV2.mkDefault (capital : ℚ) : FlipBotV2 where
  capital := capital
  initial_capital := capital
  daily_target := 1
  max_dd := 0.20
  consecutive_losses := 0
  daily_trades := 0
  max_daily_trades := 15
  max_position_size := 0.35
  stop_loss := 0.02
  trade_history := []
  peak_capital := capital
  current_streak := 0
  best_streak := 0

def FlipBotV2.current_dd (s : FlipBotV2) : ℚ :=
  (s.initial_capital - s.capital) / s.initial_capital

/-- The expression `(self.capital - self.initial_capital) / self.initial_capital`
computed by `calculate_position_size` and `trade`. -/
def FlipBotV2.current_return (s : FlipBotV2) : ℚ :=
  (s.capital - s.initial_capital) / s.initial_capital

/-- `FlipBotV2.check_signal` (lines 25-37).  Note the flip defaults:
volatility and breakout_score default to 0 here. -/
def FlipBotV2.check_signal (d : MetricsSnapshot) : Bool :=
  let vol := d.volatility.getD 0
  let breakout := d.breakout_score.getD 0
  let confidence := d.ai_confidence.getD 0.5
  let momentum := d.momentum.getD 0.5
  decide ((0.03 < vol ∧ vol < 0.25) ∧ breakout > 0.75 ∧ confidence > 0.6 ∧
    |momentum| > 0.4)

/-- `FlipBotV2.calculate_position_size` (lines 39-76).  Pure: reads only the
state and the snapshot's `ai_confidence`.  `max(1, ...)` over Python ints on
`trades_left` coincides with `max 1` over truncated `ℕ` subtraction. -/
def FlipBotV2.calculate_position_size (s : FlipBotV2) (d : MetricsSnapshot) : ℚ :=
  let confidence := d.ai_confidence.getD 0.5
  let remaining_target := max 0 (s.daily_target - s.current_return)
  let trades_left := max 1 (s.max_daily_trades - s.daily_trades)
  let base_size :=
    if remaining_target > 0 then
      s.capital * min (remaining_target / (trades_left : ℚ)) s.max_position_size
    else
      s.capital * 0.05
  let confidence_mult := 0.7 + confidence * 0.6
  let streak_mult :=
    if s.current_streak > 0 then min 1.5 (1 + (s.current_streak : ℚ) * 0.1)
    else 1
  let loss_mult :=
    if s.consecutive_losses ≥ 2 then max 0.5 (1 - (s.consecutive_losses : ℚ) * 0.15)
    else 1
  let final_size := base_size * confidence_mult * streak_mult * loss_mult
  max (min final_size (s.capital * s.max_position_size)) (s.capital * 0.02)

/-- `FlipBotV2.trade` (lines 78-143).  The success probability
`0.55 + confidence * 0.25` is not clamped in the source; the LOSS branch does
draw a second random value (`random.uniform(0.8, 1.2)`), unlike the other two
engines; no history record is appended; the clock input is unused by this
engine. -/
def FlipBotV2.trade (s : FlipBotV2) (d : MetricsSnapshot) (g : ℕ → ℚ)
    (i : ℕ) (_now : ℕ) : FlipBotV2 × Outcome × ℕ :=
  if s.daily_trades ≥ s.max_daily_trades then (s, .blocked .dailyLimit, i)
  else if s.current_return ≥ s.daily_target then (s, .blocked .targetHit, i)
  else if s.current_dd > s.max_dd then (s, .blocked .drawdownStop, i)
  else if ¬ FlipBotV2.check_signal d then (s, .blocked .signalRejected, i)
  else
    let trade_size := s.calculate_position_size d
    let confidence := d.ai_confidence.getD 0.5
    let success_prob := 0.55 + confidence * 0.25
    if g i < success_prob then
      let profit_pct := (0.08 + g (i + 1) * (0.25 - 0.08)) * (1 + confidence * 0.5)
      let profit_pct := min 0.35 profit_pct
      let profit := trade_size * profit_pct
      let capital := s.capital + profit
      let streak := s.current_streak + 1
      let peak := if capital > s.peak_capital then capital else s.peak_capital
      ({ s with
          capital := capital
          consecutive_losses := 0
          current_streak := streak
          best_streak := max s.best_streak streak
          peak_capital := peak
          daily_trades := s.daily_trades + 1 },
        .win trade_size profit profit_pct, i + 2)
    else
      let loss_pct := s.stop_loss * (0.8 + g (i + 1) * (1.2 - 0.8))
      let loss_pct := min 0.04 loss_pct
      let lossAmt := trade_size * loss_pct
      ({ s with
          capital := s.capital - lossAmt
          consecutive_losses := s.consecutive_losses + 1
          current_streak := 0
          daily_trades := s.daily_trades + 1 },
        .loss trade_size lossAmt loss_pct, i + 2)

/-- Feeding a list of (snapshot, clock) pairs to `FlipBotV2.trade` in
order. -/
def FlipBotV2.run (s : FlipBotV2) (l : List (MetricsSnapshot × ℕ))
    (g : ℕ → ℚ) (i : ℕ) : FlipBotV2 × List Outcome × ℕ :=
  match l with
  | [] => (s, [], i)
  | (d, t) :: rest =>
    let step := FlipBotV2.trade s d g i t
    let tail := FlipBotV2.run step.1 rest g step.2.2
    (tail.1, step.2.1 :: tail.2.1, tail.2.2)

/-- A snapshot passing `AggressiveBot.signal_ok`. -/
def snapAgg : MetricsSnapshot :=
  { momentum := some 0.8, trend_strength := some 0.7, breakout_score := some 0.8,
    volatility := some 0.1, volume_spike := some true, ai_confidence := some 0.8,
    regime := some .trending_bull, rsi := some 80, confluence := some 0.7 }

/-- A snapshot passing `ConservativeBot.can_trade` at the default
`min_confidence`. -/
def snapCon : MetricsSnapshot :=
  { spread := some 0.001, volume := some 2000000, volatility := some 0.05,
    ai_confidence := some 0.85, regime := some .trending_bull,
    support_resistance := some 0.8, trend_strength := some 0.7,
    confluence := some 0.8, rsi := some 50, volume_profile := some 1 }

/-- A snapshot passing `FlipBotV2.check_signal`. -/
def snapFlip : MetricsSnapshot :=
  { momentum := some 0.5, breakout_score := some 0.8, volatility := some 0.1,
    ai_confidence := some 0.7 }

/-- The all-zero draw stream (every `random.random()` call returns 0, which
is below every clamped success probability: forces the WIN branch). -/
def gZero : ℕ → ℚ := fun _ => 0

/-- The constant-0.9 draw stream (0.9 is at or above every engine's attained
success probability on the witness snapshots: forces the LOSS branch). -/
def gNine : ℕ → ℚ := fun _ => 0.9

/-- An aggressive state whose drawdown 50% exceeds the default 18% limit. -/
def sAggDown : AggressiveBot := { AggressiveBot.mkDefault 100 with capital := 50 }

/-- A conservative state whose drawdown 10% exceeds the default 3% limit. -/
def sConDown : ConservativeBot := { ConservativeBot.mkDefault 100 with capital := 90 }

/-- A flip state whose drawdown 30% exceeds the default 20% limit. -/
def sFlipDown : FlipBotV2 := { FlipBotV2.mkDefault 100 with capital := 70 }

/-- The empty snapshot (a trade evaluated on `{}`: every field at its
call-site default).  It fails all three signal gates. -/
def snapNone : MetricsSnapshot := {}

/-- The streak counters are never both nonzero (aggressive profile). -/
def AggressiveBot.streakInv (s : AggressiveBot) : Prop :=
  s.consecutive_wins = 0 ∨ s.consecutive_losses = 0

/-- The streak counters are never both nonzero (flip profile:
`current_streak` plays the win-streak role). -/
def FlipBotV2.streakInv (s : FlipBotV2) : Prop :=
  s.current_streak = 0 ∨ s.consecutive_losses = 0

/-- A flip engine that has already executed its `max_daily_trades` (15)
non-blocked trades in the period. -/
def sFlipFull : FlipBotV2 := { FlipBotV2.mkDefault 10000 with daily_trades := 15 }

/-- An aggressive engine at its daily trade cap. -/
def sAggFull : AggressiveBot := { AggressiveBot.mkDefault 10000 with daily_trades := 15 }

/-- A conservative engine at its daily trade cap (4). -/
def sConFull : ConservativeBot := { ConservativeBot.mkDefault 10000 with daily_trades := 4 }

/-- Number of RNG draws an `AggressiveBot.trade` call consumes, by outcome:
the WIN branch draws the branch selector and `random.uniform(0.05, 0.15)`;
the LOSS branch draws only the branch selector (its loss percentage is
`stop_loss` times a regime table value, with no random call). -/
def AggressiveBot.drawsOf : Outcome → ℕ
  | .blocked _ => 0
  | .win _ _ _ => 2
  | .loss _ _ _ => 1

/-- Number of RNG draws a `ConservativeBot.trade` call consumes, by outcome
(the LOSS branch makes no random call). -/
def ConservativeBot.drawsOf : Outcome → ℕ
  | .blocked _ => 0
  | .win _ _ _ => 2
  | .loss _ _ _ => 1

/-- Number of RNG draws a `FlipBotV2.trade` call consumes, by outcome: its
LOSS branch does draw `random.uniform(0.8, 1.2)`. -/
def FlipBotV2.drawsOf : Outcome → ℕ
  | .blocked _ => 0
  | .win _ _ _ => 2
  | .loss _ _ _ => 2

/-- `snapFlip` with only the momentum field changed (0.5 → 0.9); still passes
the flip gate (`|momentum| > 0.4`). -/
def snapFlipHiM : MetricsSnapshot := { snapFlip with momentum := some 0.9 }

/-- An aggressive trade record with its wall-clock timestamp blanked. -/
def ATradeRecord.eraseTime : ATradeRecord → ATradeRecord
  | .win _ sz p pp cf rg st hm => .win 0 sz p pp cf rg st hm
  | .loss _ sz la lp cf rg st => .loss 0 sz la lp cf rg st

/-- A conservative trade record with its wall-clock timestamp blanked. -/
def CTradeRecord.eraseTime : CTradeRecord → CTradeRecord
  | .win _ sz p pp cf rg => .win 0 sz p pp cf rg
  | .loss _ sz la lp cf rg => .loss 0 sz la lp cf rg

/-- A daily summary with its date blanked. -/
def CDailySummary.eraseDate (r : CDailySummary) : CDailySummary := { r with date := 0 }

/-- An aggressive state with all history timestamps blanked: two states agree
on `eraseTimes` iff they differ at most in the wall-clock stamps of their
trade records. -/
def AggressiveBot.eraseTimes (s : AggressiveBot) : AggressiveBot :=
  { s with trade_history := s.trade_history.map ATradeRecord.eraseTime }

/-- A conservative state with all history timestamps and dates blanked. -/
def ConservativeBot.eraseTimes (s : ConservativeBot) : ConservativeBot :=
  { s with
      trade_history := s.trade_history.map CTradeRecord.eraseTime
      daily_history := s.daily_history.map CDailySummary.eraseDate }

/-- The wall-clock timestamp stored in an aggressive trade record. -/
def ATradeRecord.time : ATradeRecord → ℕ
  | .win ts _ _ _ _ _ _ _ => ts
  | .loss ts _ _ _ _ _ _ => ts

/-! ## Helper lemmas and claim theorems -/

theorem clamp_bounds (f c lo hi : ℚ) (h : c * lo ≤ c * hi) :
    c * lo ≤ max (min f (c * hi)) (c * lo) ∧
      max (min f (c * hi)) (c * lo) ≤ c * hi :=
  ⟨le_max_right _ _, max_le (min_le_right _ _) h⟩

theorem AggressiveBot.size_bounds_agg (s : AggressiveBot) (d : MetricsSnapshot)
    (hc : 0 ≤ s.capital) :
    s.capital * 0.02 ≤ (s.calculate_position_size d).2 ∧
      (s.calculate_position_size d).2 ≤ s.capital * 0.20 :=
  clamp_bounds _ _ _ _ (mul_le_mul_of_nonneg_left (by norm_num) hc)

theorem ConservativeBot.size_bounds_con (s : ConservativeBot) (d : MetricsSnapshot)
    (hc : 0 ≤ s.capital) :
    s.capital * 0.003 ≤ s.calculate_position_size d ∧
      s.calculate_position_size d ≤ s.capital * 0.02 :=
  clamp_bounds _ _ _ _ (mul_le_mul_of_nonneg_left (by norm_num) hc)

theorem FlipBotV2.size_bounds_flip (s : FlipBotV2) (d : MetricsSnapshot)
    (hc : 0 ≤ s.capital) (hm : s.max_position_size = 0.35) :
    s.capital * 0.02 ≤ s.calculate_position_size d ∧
      s.calculate_position_size d ≤ s.capital * 0.35 := by
  have hmm : s.capital * 0.02 ≤ s.capital * s.max_position_size := by
    rw [hm]; exact mul_le_mul_of_nonneg_left (by norm_num) hc
  have h1 : s.capital * 0.02 ≤ s.calculate_position_size d ∧
      s.calculate_position_size d ≤ s.capital * s.max_position_size :=
    clamp_bounds _ _ _ _ hmm
  rw [hm] at h1
  exact h1

theorem AggressiveBot.trade_blocked_of_dd_agg (s : AggressiveBot) (d : MetricsSnapshot)
    (g : ℕ → ℚ) (i t : ℕ) (h : s.current_dd > s.dd_limit) :
    ∃ r, AggressiveBot.trade s d g i t = (s, .blocked r, i) := by
  unfold AggressiveBot.trade
  split_ifs with h1
  · exact ⟨_, rfl⟩
  · exact ⟨_, rfl⟩

theorem ConservativeBot.trade_blocked_of_dd_con (s : ConservativeBot) (d : MetricsSnapshot)
    (g : ℕ → ℚ) (i t : ℕ) (h : s.current_dd > s.max_drawdown) :
    ∃ r, ConservativeBot.trade s d g i t = (s, .blocked r, i) := by
  unfold ConservativeBot.trade
  split_ifs with h1 h2
  · exact ⟨_, rfl⟩
  · exact ⟨_, rfl⟩
  · exact ⟨_, rfl⟩

theorem FlipBotV2.trade_blocked_of_dd_flip (s : FlipBotV2) (d : MetricsSnapshot)
    (g : ℕ → ℚ) (i t : ℕ) (h : s.current_dd > s.max_dd) :
    ∃ r, FlipBotV2.trade s d g i t = (s, .blocked r, i) := by
  unfold FlipBotV2.trade
  split_ifs with h1 h2
  · exact ⟨_, rfl⟩
  · exact ⟨_, rfl⟩
  · exact ⟨_, rfl⟩

theorem AggressiveBot.run_blocked_of_dd_agg (s : AggressiveBot)
    (l : List (MetricsSnapshot × ℕ)) (g : ℕ → ℚ) (i : ℕ)
    (h : s.current_dd > s.dd_limit) :
    (AggressiveBot.run s l g i).1 = s ∧
      (∀ o ∈ (AggressiveBot.run s l g i).2.1, o.isBlocked) ∧
      (AggressiveBot.run s l g i).2.2 = i := by
  induction l with
  | nil => refine ⟨rfl, ?_, rfl⟩; intro o ho; cases ho
  | cons hd tl ih =>
    obtain ⟨d, t⟩ := hd
    obtain ⟨r, hr⟩ := AggressiveBot.trade_blocked_of_dd_agg s d g i t h
    have hrun : AggressiveBot.run s ((d, t) :: tl) g i =
        ((AggressiveBot.run s tl g i).1,
          Outcome.blocked r :: (AggressiveBot.run s tl g i).2.1,
          (AggressiveBot.run s tl g i).2.2) := by
      simp [AggressiveBot.run, hr]
    rw [hrun]
    refine ⟨ih.1, ?_, ih.2.2⟩
    intro o ho
    rcases List.mem_cons.mp ho with ho | ho
    · simp [ho, Outcome.isBlocked]
    · exact ih.2.1 o ho

theorem ConservativeBot.run_blocked_of_dd_con (s : ConservativeBot)
    (l : List (MetricsSnapshot × ℕ)) (g : ℕ → ℚ) (i : ℕ)
    (h : s.current_dd > s.max_drawdown) :
    (ConservativeBot.run s l g i).1 = s ∧
      (∀ o ∈ (ConservativeBot.run s l g i).2.1, o.isBlocked) ∧
      (ConservativeBot.run s l g i).2.2 = i := by
  induction l with
  | nil => refine ⟨rfl, ?_, rfl⟩; intro o ho; cases ho
  | cons hd tl ih =>
    obtain ⟨d, t⟩ := hd
    obtain ⟨r, hr⟩ := ConservativeBot.trade_blocked_of_dd_con s d g i t h
    have hrun : ConservativeBot.run s ((d, t) :: tl) g i =
        ((ConservativeBot.run s tl g i).1,
          Outcome.blocked r :: (ConservativeBot.run s tl g i).2.1,
          (ConservativeBot.run s tl g i).2.2) := by
      simp [ConservativeBot.run, hr]
    rw [hrun]
    refine ⟨ih.1, ?_, ih.2.2⟩
    intro o ho
    rcases List.mem_cons.mp ho with ho | ho
    · simp [ho, Outcome.isBlocked]
    · exact ih.2.1 o ho

theorem FlipBotV2.run_blocked_of_dd_flip (s : FlipBotV2)
    (l : List (MetricsSnapshot × ℕ)) (g : ℕ → ℚ) (i : ℕ)
    (h : s.current_dd > s.max_dd) :
    (FlipBotV2.run s l g i).1 = s ∧
      (∀ o ∈ (FlipBotV2.run s l g i).2.1, o.isBlocked) ∧
      (FlipBotV2.run s l g i).2.2 = i := by
  induction l with
  | nil => refine ⟨rfl, ?_, rfl⟩; intro o ho; cases ho
  | cons hd tl ih =>
    obtain ⟨d, t⟩ := hd
    obtain ⟨r, hr⟩ := FlipBotV2.trade_blocked_of_dd_flip s d g i t h
    have hrun : FlipBotV2.run s ((d, t) :: tl) g i =
        ((FlipBotV2.run s tl g i).1,
          Outcome.blocked r :: (FlipBotV2.run s tl g i).2.1,
          (FlipBotV2.run s tl g i).2.2) := by
      simp [FlipBotV2.run, hr]
    rw [hrun]
    refine ⟨ih.1, ?_, ih.2.2⟩
    intro o ho
    rcases List.mem_cons.mp ho with ho | ho
    · simp [ho, Outcome.isBlocked]
    · exact ih.2.1 o ho

/-- C1: for every engine profile, once the drawdown
`(initial_capital - capital) / initial_capital` exceeds the configured
maximum (`dd_limit` / `max_drawdown` / `max_dd`), every subsequent `trade`
call returns a Blocked outcome regardless of the snapshot, and — because no
blocked call mutates the state — the whole run leaves the state exactly as
it was, so the block persists until capital is externally restored: no
`trade` call can clear it. -/
theorem C1_drawdown_gate_latches :
    (∀ (s : AggressiveBot) (l : List (MetricsSnapshot × ℕ)) (g : ℕ → ℚ) (i : ℕ),
      s.current_dd > s.dd_limit →
      (AggressiveBot.run s l g i).1 = s ∧
        ∀ o ∈ (AggressiveBot.run s l g i).2.1, o.isBlocked) ∧
    (∀ (s : ConservativeBot) (l : List (MetricsSnapshot × ℕ)) (g : ℕ → ℚ) (i : ℕ),
      s.current_dd > s.max_drawdown →
      (ConservativeBot.run s l g i).1 = s ∧
        ∀ o ∈ (ConservativeBot.run s l g i).2.1, o.isBlocked) ∧
    (∀ (s : FlipBotV2) (l : List (MetricsSnapshot × ℕ)) (g : ℕ → ℚ) (i : ℕ),
      s.current_dd > s.max_dd →
      (FlipBotV2.run s l g i).1 = s ∧
        ∀ o ∈ (FlipBotV2.run s l g i).2.1, o.isBlocked) :=
  ⟨fun s l g i h =>
      ⟨(AggressiveBot.run_blocked_of_dd_agg s l g i h).1,
        (AggressiveBot.run_blocked_of_dd_agg s l g i h).2.1⟩,
    fun s l g i h =>
      ⟨(ConservativeBot.run_blocked_of_dd_con s l g i h).1,
        (ConservativeBot.run_blocked_of_dd_con s l g i h).2.1⟩,
    fun s l g i h =>
      ⟨(FlipBotV2.run_blocked_of_dd_flip s l g i h).1,
        (FlipBotV2.run_blocked_of_dd_flip s l g i h).2.1⟩⟩

/-- Witness for C1 at concrete breached states, gate-passing snapshots and a
concrete draw stream. -/
theorem C1_drawdown_gate_latches_witness :
    ((AggressiveBot.run sAggDown [(snapAgg, 1), (snapAgg, 2)] gZero 0).1 = sAggDown ∧
      ∀ o ∈ (AggressiveBot.run sAggDown [(snapAgg, 1), (snapAgg, 2)] gZero 0).2.1,
        o.isBlocked) ∧
    ((ConservativeBot.run sConDown [(snapCon, 1)] gZero 0).1 = sConDown ∧
      ∀ o ∈ (ConservativeBot.run sConDown [(snapCon, 1)] gZero 0).2.1, o.isBlocked) ∧
    ((FlipBotV2.run sFlipDown [(snapFlip, 1)] gZero 0).1 = sFlipDown ∧
      ∀ o ∈ (FlipBotV2.run sFlipDown [(snapFlip, 1)] gZero 0).2.1, o.isBlocked) :=
  ⟨C1_drawdown_gate_latches.1 sAggDown [(snapAgg, 1), (snapAgg, 2)] gZero 0
      (by norm_num [sAggDown, AggressiveBot.current_dd, AggressiveBot.mkDefault]),
    C1_drawdown_gate_latches.2.1 sConDown [(snapCon, 1)] gZero 0
      (by norm_num [sConDown, ConservativeBot.current_dd, ConservativeBot.mkDefault]),
    C1_drawdown_gate_latches.2.2 sFlipDown [(snapFlip, 1)] gZero 0
      (by norm_num [sFlipDown, FlipBotV2.current_dd, FlipBotV2.mkDefault])⟩

/-- C3: the notional returned by `calculate_position_size` always lies within
the profile's hardcoded clamp bounds as a fraction of current capital —
aggressive in [2%, 20%], conservative in [0.3%, 2%], flip in [2%, 35%] of
`capital` — for every snapshot and every state with non-negative capital
(which covers every reachable state; flip's upper clamp is its
`max_position_size` field, hardcoded to 0.35 at construction). -/
theorem C3_position_size_bounds :
    (∀ (s : AggressiveBot) (d : MetricsSnapshot), 0 ≤ s.capital →
      s.capital * 0.02 ≤ (s.calculate_position_size d).2 ∧
        (s.calculate_position_size d).2 ≤ s.capital * 0.20) ∧
    (∀ (s : ConservativeBot) (d : MetricsSnapshot), 0 ≤ s.capital →
      s.capital * 0.003 ≤ s.calculate_position_size d ∧
        s.calculate_position_size d ≤ s.capital * 0.02) ∧
    (∀ (s : FlipBotV2) (d : MetricsSnapshot), 0 ≤ s.capital →
      s.max_position_size = 0.35 →
      s.capital * 0.02 ≤ s.calculate_position_size d ∧
        s.calculate_position_size d ≤ s.capital * 0.35) :=
  ⟨fun s d hc => AggressiveBot.size_bounds_agg s d hc,
    fun s d hc => ConservativeBot.size_bounds_con s d hc,
    fun s d hc hm => FlipBotV2.size_bounds_flip s d hc hm⟩

/-- Witness for C3 at freshly constructed engines and the gate-passing
snapshots. -/
theorem C3_position_size_bounds_witness :
    ((10000 : ℚ) * 0.02 ≤
        ((AggressiveBot.mkDefault 10000).calculate_position_size snapAgg).2 ∧
      ((AggressiveBot.mkDefault 10000).calculate_position_size snapAgg).2 ≤
        (10000 : ℚ) * 0.20) ∧
    ((10000 : ℚ) * 0.003 ≤
        (ConservativeBot.mkDefault 10000).calculate_position_size snapCon ∧
      (ConservativeBot.mkDefault 10000).calculate_position_size snapCon ≤
        (10000 : ℚ) * 0.02) ∧
    ((10000 : ℚ) * 0.02 ≤ (FlipBotV2.mkDefault 10000).calculate_position_size snapFlip ∧
      (FlipBotV2.mkDefault 10000).calculate_position_size snapFlip ≤
        (10000 : ℚ) * 0.35) :=
  ⟨C3_position_size_bounds.1 (AggressiveBot.mkDefault 10000) snapAgg
      (by norm_num [AggressiveBot.mkDefault]),
    C3_position_size_bounds.2.1 (ConservativeBot.mkDefault 10000) snapCon
      (by norm_num [ConservativeBot.mkDefault]),
    C3_position_size_bounds.2.2 (FlipBotV2.mkDefault 10000) snapFlip
      (by norm_num [FlipBotV2.mkDefault]) rfl⟩

theorem AggressiveBot.trade_gate_reject_agg (s : AggressiveBot) (d : MetricsSnapshot)
    (g : ℕ → ℚ) (i t : ℕ) (h : AggressiveBot.signal_ok d = false) :
    ∃ r, AggressiveBot.trade s d g i t = (s, .blocked r, i) := by
  unfold AggressiveBot.trade
  split_ifs with h1 h2 h3
  all_goals first
    | exact ⟨_, rfl⟩
    | (rw [h] at h3; exact absurd h3 (by simp))

theorem FlipBotV2.trade_gate_reject_flip (s : FlipBotV2) (d : MetricsSnapshot)
    (g : ℕ → ℚ) (i t : ℕ) (h : FlipBotV2.check_signal d = false) :
    ∃ r, FlipBotV2.trade s d g i t = (s, .blocked r, i) := by
  unfold FlipBotV2.trade
  split_ifs with h1 h2 h3 h4
  all_goals first
    | exact ⟨_, rfl⟩
    | (rw [h] at h4; exact absurd h4 (by simp))

theorem ConservativeBot.trade_gate_reject_con (s : ConservativeBot) (d : MetricsSnapshot)
    (g : ℕ → ℚ) (i t : ℕ) (h : s.can_trade d = false) :
    (∃ r, ConservativeBot.trade s d g i t = (s, .blocked r, i)) ∨
      ConservativeBot.trade s d g i t =
        ({ s with safety_violations := s.safety_violations + 1 },
          .blocked .signalRejected, i) := by
  unfold ConservativeBot.trade
  split_ifs with h1 h2 h3 h4
  all_goals first
    | exact Or.inl ⟨_, rfl⟩
    | exact Or.inr rfl
    | (rw [h] at h4; exact absurd h4 (by simp))

/-- C2 (amended): for every profile, a `trade` call on a snapshot whose
signal gate fails returns a Blocked outcome, does not advance the RNG, and
leaves capital, streak counters, `daily_trades`, pnl and trade history
unchanged; for the aggressive and flip profiles the whole state is exactly
unchanged, while the conservative gate-reject path may additionally
increment the `safety_violations` counter (and mutates nothing else). -/
theorem C2_gate_reject_blocks_without_mutation :
    (∀ (s : AggressiveBot) (d : MetricsSnapshot) (g : ℕ → ℚ) (i t : ℕ),
      AggressiveBot.signal_ok d = false →
      ∃ r, AggressiveBot.trade s d g i t = (s, .blocked r, i)) ∧
    (∀ (s : FlipBotV2) (d : MetricsSnapshot) (g : ℕ → ℚ) (i t : ℕ),
      FlipBotV2.check_signal d = false →
      ∃ r, FlipBotV2.trade s d g i t = (s, .blocked r, i)) ∧
    (∀ (s : ConservativeBot) (d : MetricsSnapshot) (g : ℕ → ℚ) (i t : ℕ),
      s.can_trade d = false →
      (ConservativeBot.trade s d g i t).2.1.isBlocked ∧
        (ConservativeBot.trade s d g i t).2.2 = i ∧
        (ConservativeBot.trade s d g i t).1.capital = s.capital ∧
        (ConservativeBot.trade s d g i t).1.daily_trades = s.daily_trades ∧
        (ConservativeBot.trade s d g i t).1.daily_profit = s.daily_profit ∧
        (ConservativeBot.trade s d g i t).1.peak_capital = s.peak_capital ∧
        (ConservativeBot.trade s d g i t).1.trade_history = s.trade_history ∧
        ((ConservativeBot.trade s d g i t).1.safety_violations = s.safety_violations ∨
          (ConservativeBot.trade s d g i t).1.safety_violations =
            s.safety_violations + 1)) := by
  refine ⟨AggressiveBot.trade_gate_reject_agg, FlipBotV2.trade_gate_reject_flip, ?_⟩
  intro s d g i t h
  rcases ConservativeBot.trade_gate_reject_con s d g i t h with ⟨r, hr⟩ | hr <;>
    rw [hr] <;> simp [Outcome.isBlocked]

/-- Witness for C2 at a fresh engine and the empty snapshot (which fails all
three gates). -/
theorem C2_gate_reject_blocks_without_mutation_witness :
    (∃ r, AggressiveBot.trade (AggressiveBot.mkDefault 10000) snapNone gZero 0 1 =
      (AggressiveBot.mkDefault 10000, .blocked r, 0)) ∧
    (∃ r, FlipBotV2.trade (FlipBotV2.mkDefault 10000) snapNone gZero 0 1 =
      (FlipBotV2.mkDefault 10000, .blocked r, 0)) ∧
    ((ConservativeBot.trade (ConservativeBot.mkDefault 10000) snapNone gZero 0 1).2.1.isBlocked ∧
      (ConservativeBot.trade (ConservativeBot.mkDefault 10000) snapNone gZero 0 1).1.capital
        = (ConservativeBot.mkDefault 10000).capital) :=
  ⟨C2_gate_reject_blocks_without_mutation.1 _ snapNone gZero 0 1
      (by norm_num [AggressiveBot.signal_ok, snapNone]),
    C2_gate_reject_blocks_without_mutation.2.1 _ snapNone gZero 0 1
      (by norm_num [FlipBotV2.check_signal, snapNone]),
    ((C2_gate_reject_blocks_without_mutation.2.2 (ConservativeBot.mkDefault 10000)
        snapNone gZero 0 1
        (by norm_num [ConservativeBot.can_trade, ConservativeBot.mkDefault, snapNone])).1),
    ((C2_gate_reject_blocks_without_mutation.2.2 (ConservativeBot.mkDefault 10000)
        snapNone gZero 0 1
        (by norm_num [ConservativeBot.can_trade, ConservativeBot.mkDefault, snapNone])).2.2.1)⟩

/-- Counterexample to C2 as stated: the conservative gate-reject path is NOT
mutation-free — on a fresh `ConservativeBot(10000)` and the empty snapshot
(`can_trade` false) the call returns Blocked but increments
`safety_violations` from 0 to 1, so the post state differs from the pre
state. -/
theorem C2_counterexample_conservative_gate_reject_mutates :
    (ConservativeBot.mkDefault 10000).can_trade snapNone = false ∧
    (ConservativeBot.trade (ConservativeBot.mkDefault 10000) snapNone gZero 0 1).2.1 =
      .blocked .signalRejected ∧
    (ConservativeBot.trade (ConservativeBot.mkDefault 10000) snapNone gZero 0 1).1.safety_violations = 1 ∧
    (ConservativeBot.trade (ConservativeBot.mkDefault 10000) snapNone gZero 0 1).1 ≠
      ConservativeBot.mkDefault 10000 := by
  have hct : (ConservativeBot.mkDefault 10000).can_trade snapNone = false := by
    norm_num [ConservativeBot.can_trade, ConservativeBot.mkDefault, snapNone]
  rcases ConservativeBot.trade_gate_reject_con (ConservativeBot.mkDefault 10000) snapNone
      gZero 0 1 hct with ⟨r, hr⟩ | hr
  · exfalso
    have := congrArg (fun p => p.1.safety_violations) hr
    norm_num [ConservativeBot.trade, ConservativeBot.mkDefault, ConservativeBot.can_trade,
      ConservativeBot.current_dd, ConservativeBot.daily_return, snapNone] at this
  · refine ⟨hct, by rw [hr], by rw [hr]; simp [ConservativeBot.mkDefault], ?_⟩
    rw [hr]
    intro heq
    have := congrArg ConservativeBot.safety_violations heq
    simp [ConservativeBot.mkDefault] at this

theorem regime_tb_ne_sideways : (Regime.trending_bull = Regime.sideways) = False :=
  eq_false fun h => by cases h

theorem AggressiveBot.trade_streaks_agg (s : AggressiveBot) (d : MetricsSnapshot)
    (g : ℕ → ℚ) (i t : ℕ) :
    ((AggressiveBot.trade s d g i t).2.1.isBlocked →
      (AggressiveBot.trade s d g i t).1.consecutive_wins = s.consecutive_wins ∧
      (AggressiveBot.trade s d g i t).1.consecutive_losses = s.consecutive_losses) ∧
    ((AggressiveBot.trade s d g i t).2.1.isWin →
      (AggressiveBot.trade s d g i t).1.consecutive_wins = s.consecutive_wins + 1 ∧
      (AggressiveBot.trade s d g i t).1.consecutive_losses = 0) ∧
    ((AggressiveBot.trade s d g i t).2.1.isLoss →
      (AggressiveBot.trade s d g i t).1.consecutive_losses = s.consecutive_losses + 1 ∧
      (AggressiveBot.trade s d g i t).1.consecutive_wins = 0) := by
  simp only [AggressiveBot.trade, AggressiveBot.calculate_position_size,
    AggressiveBot.position_factors]
  split_ifs <;>
    simp [Outcome.isBlocked, Outcome.isWin, Outcome.isLoss]

theorem FlipBotV2.trade_streaks_flip (s : FlipBotV2) (d : MetricsSnapshot)
    (g : ℕ → ℚ) (i t : ℕ) :
    ((FlipBotV2.trade s d g i t).2.1.isBlocked →
      (FlipBotV2.trade s d g i t).1.current_streak = s.current_streak ∧
      (FlipBotV2.trade s d g i t).1.consecutive_losses = s.consecutive_losses) ∧
    ((FlipBotV2.trade s d g i t).2.1.isWin →
      (FlipBotV2.trade s d g i t).1.current_streak = s.current_streak + 1 ∧
      (FlipBotV2.trade s d g i t).1.consecutive_losses = 0) ∧
    ((FlipBotV2.trade s d g i t).2.1.isLoss →
      (FlipBotV2.trade s d g i t).1.consecutive_losses = s.consecutive_losses + 1 ∧
      (FlipBotV2.trade s d g i t).1.current_streak = 0) := by
  simp only [FlipBotV2.trade, FlipBotV2.calculate_position_size]
  split_ifs <;>
    simp [Outcome.isBlocked, Outcome.isWin, Outcome.isLoss]

theorem AggressiveBot.trade_streakInv_agg (s : AggressiveBot) (d : MetricsSnapshot)
    (g : ℕ → ℚ) (i t : ℕ) (h : s.streakInv) :
    (AggressiveBot.trade s d g i t).1.streakInv := by
  have hc := AggressiveBot.trade_streaks_agg s d g i t
  rcases ho : (AggressiveBot.trade s d g i t).2.1 with r | ⟨a, b, c⟩ | ⟨a, b, c⟩
  · have := hc.1 (by rw [ho]; rfl)
    unfold AggressiveBot.streakInv
    rw [this.1, this.2]
    exact h
  · have := hc.2.1 (by rw [ho]; rfl)
    exact Or.inr this.2
  · have := hc.2.2 (by rw [ho]; rfl)
    exact Or.inl this.2

theorem FlipBotV2.trade_streakInv_flip (s : FlipBotV2) (d : MetricsSnapshot)
    (g : ℕ → ℚ) (i t : ℕ) (h : s.streakInv) :
    (FlipBotV2.trade s d g i t).1.streakInv := by
  have hc := FlipBotV2.trade_streaks_flip s d g i t
  rcases ho : (FlipBotV2.trade s d g i t).2.1 with r | ⟨a, b, c⟩ | ⟨a, b, c⟩
  · have := hc.1 (by rw [ho]; rfl)
    unfold FlipBotV2.streakInv
    rw [this.1, this.2]
    exact h
  · have := hc.2.1 (by rw [ho]; rfl)
    exact Or.inr this.2
  · have := hc.2.2 (by rw [ho]; rfl)
    exact Or.inl this.2

theorem AggressiveBot.run_streakInv_agg (s : AggressiveBot)
    (l : List (MetricsSnapshot × ℕ)) (g : ℕ → ℚ) (i : ℕ) (h : s.streakInv) :
    (AggressiveBot.run s l g i).1.streakInv := by
  induction l generalizing s i with
  | nil => exact h
  | cons hd tl ih =>
    obtain ⟨d, t⟩ := hd
    exact ih _ _ (AggressiveBot.trade_streakInv_agg s d g i t h)

theorem FlipBotV2.run_streakInv_flip (s : FlipBotV2)
    (l : List (MetricsSnapshot × ℕ)) (g : ℕ → ℚ) (i : ℕ) (h : s.streakInv) :
    (FlipBotV2.run s l g i).1.streakInv := by
  induction l generalizing s i with
  | nil => exact h
  | cons hd tl ih =>
    obtain ⟨d, t⟩ := hd
    exact ih _ _ (FlipBotV2.trade_streakInv_flip s d g i t h)

/-- C5: the win-streak and loss-streak counters are mutually exclusive.  For
the aggressive profile (`consecutive_wins`/`consecutive_losses`) and the flip
profile (`current_streak`/`consecutive_losses`): a WIN outcome increments the
win streak and zeroes the loss streak, a LOSS outcome increments the loss
streak and zeroes the win streak, a Blocked outcome changes neither; hence
"never both nonzero" holds at construction and is preserved by every
sequence of `trade` calls.  (The conservative profile maintains no streak
counters at all, so the invariant is vacuous there.) -/
theorem C5_streaks_mutually_exclusive :
    (∀ (s : AggressiveBot) (d : MetricsSnapshot) (g : ℕ → ℚ) (i t : ℕ),
      ((AggressiveBot.trade s d g i t).2.1.isWin →
        (AggressiveBot.trade s d g i t).1.consecutive_wins = s.consecutive_wins + 1 ∧
        (AggressiveBot.trade s d g i t).1.consecutive_losses = 0) ∧
      ((AggressiveBot.trade s d g i t).2.1.isLoss →
        (AggressiveBot.trade s d g i t).1.consecutive_losses = s.consecutive_losses + 1 ∧
        (AggressiveBot.trade s d g i t).1.consecutive_wins = 0)) ∧
    (∀ (s : FlipBotV2) (d : MetricsSnapshot) (g : ℕ → ℚ) (i t : ℕ),
      ((FlipBotV2.trade s d g i t).2.1.isWin →
        (FlipBotV2.trade s d g i t).1.current_streak = s.current_streak + 1 ∧
        (FlipBotV2.trade s d g i t).1.consecutive_losses = 0) ∧
      ((FlipBotV2.trade s d g i t).2.1.isLoss →
        (FlipBotV2.trade s d g i t).1.consecutive_losses = s.consecutive_losses + 1 ∧
        (FlipBotV2.trade s d g i t).1.current_streak = 0)) ∧
    (∀ c : ℚ, (AggressiveBot.mkDefault c).streakInv ∧ (FlipBotV2.mkDefault c).streakInv) ∧
    (∀ (s : AggressiveBot) (l : List (MetricsSnapshot × ℕ)) (g : ℕ → ℚ) (i : ℕ),
      s.streakInv → (AggressiveBot.run s l g i).1.streakInv) ∧
    (∀ (s : FlipBotV2) (l : List (MetricsSnapshot × ℕ)) (g : ℕ → ℚ) (i : ℕ),
      s.streakInv → (FlipBotV2.run s l g i).1.streakInv) :=
  ⟨fun s d g i t => (AggressiveBot.trade_streaks_agg s d g i t).2,
    fun s d g i t => (FlipBotV2.trade_streaks_flip s d g i t).2,
    fun _ => ⟨Or.inl rfl, Or.inl rfl⟩,
    AggressiveBot.run_streakInv_agg,
    FlipBotV2.run_streakInv_flip⟩

/-- Witness for C5: a concrete WIN trade (draw 0) and a concrete LOSS trade
(draw 0.9) on each of the two streak-tracking profiles, plus the invariant
along a concrete two-call run. -/
theorem C5_streaks_mutually_exclusive_witness :
    ((AggressiveBot.trade (AggressiveBot.mkDefault 10000) snapAgg gZero 0 1).1.consecutive_wins = 1 ∧
      (AggressiveBot.trade (AggressiveBot.mkDefault 10000) snapAgg gZero 0 1).1.consecutive_losses = 0) ∧
    ((AggressiveBot.trade (AggressiveBot.mkDefault 10000) snapAgg gNine 0 1).1.consecutive_losses = 1 ∧
      (AggressiveBot.trade (AggressiveBot.mkDefault 10000) snapAgg gNine 0 1).1.consecutive_wins = 0) ∧
    ((FlipBotV2.trade (FlipBotV2.mkDefault 10000) snapFlip gZero 0 1).1.current_streak = 1 ∧
      (FlipBotV2.trade (FlipBotV2.mkDefault 10000) snapFlip gZero 0 1).1.consecutive_losses = 0) ∧
    ((FlipBotV2.trade (FlipBotV2.mkDefault 10000) snapFlip gNine 0 1).1.consecutive_losses = 1 ∧
      (FlipBotV2.trade (FlipBotV2.mkDefault 10000) snapFlip gNine 0 1).1.current_streak = 0) ∧
    (AggressiveBot.run (AggressiveBot.mkDefault 10000) [(snapAgg, 1), (snapNone, 2)]
      gZero 0).1.streakInv := by
  have hAW : (AggressiveBot.trade (AggressiveBot.mkDefault 10000) snapAgg gZero 0 1).2.1.isWin := by
    norm_num [AggressiveBot.trade, AggressiveBot.calculate_position_size,
      AggressiveBot.position_factors, AggressiveBot.signal_ok, AggressiveBot.current_dd,
      AggressiveBot.mkDefault, AggressiveBot.regime_success_adj,
      AggressiveBot.regime_leverage, AggressiveBot.regime_profit_mult,
      AggressiveBot.regime_loss_adj, abs_of_nonneg, regime_tb_ne_sideways,
      snapAgg, gZero, Outcome.isWin]
  have hAL : (AggressiveBot.trade (AggressiveBot.mkDefault 10000) snapAgg gNine 0 1).2.1.isLoss := by
    norm_num [AggressiveBot.trade, AggressiveBot.calculate_position_size,
      AggressiveBot.position_factors, AggressiveBot.signal_ok, AggressiveBot.current_dd,
      AggressiveBot.mkDefault, AggressiveBot.regime_success_adj,
      AggressiveBot.regime_leverage, AggressiveBot.regime_profit_mult,
      AggressiveBot.regime_loss_adj, abs_of_nonneg, regime_tb_ne_sideways,
      snapAgg, gNine, Outcome.isLoss]
  have hFW : (FlipBotV2.trade (FlipBotV2.mkDefault 10000) snapFlip gZero 0 1).2.1.isWin := by
    norm_num [FlipBotV2.trade, FlipBotV2.calculate_position_size, FlipBotV2.check_signal,
      FlipBotV2.current_dd, FlipBotV2.current_return, FlipBotV2.mkDefault,
      abs_of_nonneg, snapFlip, gZero, Outcome.isWin]
  have hFL : (FlipBotV2.trade (FlipBotV2.mkDefault 10000) snapFlip gNine 0 1).2.1.isLoss := by
    norm_num [FlipBotV2.trade, FlipBotV2.calculate_position_size, FlipBotV2.check_signal,
      FlipBotV2.current_dd, FlipBotV2.current_return, FlipBotV2.mkDefault,
      abs_of_nonneg, snapFlip, gNine, Outcome.isLoss]
  refine ⟨(C5_streaks_mutually_exclusive.1 _ snapAgg gZero 0 1).1 hAW,
    ?_, (C5_streaks_mutually_exclusive.2.1 _ snapFlip gZero 0 1).1 hFW,
    (C5_streaks_mutually_exclusive.2.1 _ snapFlip gNine 0 1).2 hFL, ?_⟩
  · have := (C5_streaks_mutually_exclusive.1 _ snapAgg gNine 0 1).2 hAL
    simpa [AggressiveBot.mkDefault] using this
  · exact C5_streaks_mutually_exclusive.2.2.2.1 _ _ gZero 0
      (C5_streaks_mutually_exclusive.2.2.1 10000).1

/-- `AggressiveBot.calculate_position_size` writes only
`hot_streak_multiplier`; every other field of the state it returns is that of
the receiver (all immediate from the definition). -/
theorem AggressiveBot.sized_capital (s : AggressiveBot) (d : MetricsSnapshot) :
    (s.calculate_position_size d).1.capital = s.capital := rfl

theorem AggressiveBot.sized_initial_capital (s : AggressiveBot) (d : MetricsSnapshot) :
    (s.calculate_position_size d).1.initial_capital = s.initial_capital := rfl

theorem AggressiveBot.sized_peak_capital (s : AggressiveBot) (d : MetricsSnapshot) :
    (s.calculate_position_size d).1.peak_capital = s.peak_capital := rfl

theorem AggressiveBot.sized_consecutive_wins (s : AggressiveBot) (d : MetricsSnapshot) :
    (s.calculate_position_size d).1.consecutive_wins = s.consecutive_wins := rfl

theorem AggressiveBot.sized_consecutive_losses (s : AggressiveBot) (d : MetricsSnapshot) :
    (s.calculate_position_size d).1.consecutive_losses = s.consecutive_losses := rfl

theorem AggressiveBot.sized_daily_trades (s : AggressiveBot) (d : MetricsSnapshot) :
    (s.calculate_position_size d).1.daily_trades = s.daily_trades := rfl

theorem AggressiveBot.sized_daily_pnl (s : AggressiveBot) (d : MetricsSnapshot) :
    (s.calculate_position_size d).1.daily_pnl = s.daily_pnl := rfl

theorem AggressiveBot.sized_trade_history (s : AggressiveBot) (d : MetricsSnapshot) :
    (s.calculate_position_size d).1.trade_history = s.trade_history := rfl

theorem AggressiveBot.sized_max_consecutive_wins (s : AggressiveBot) (d : MetricsSnapshot) :
    (s.calculate_position_size d).1.max_consecutive_wins = s.max_consecutive_wins := rfl

theorem AggressiveBot.sized_stop_loss (s : AggressiveBot) (d : MetricsSnapshot) :
    (s.calculate_position_size d).1.stop_loss = s.stop_loss := rfl

theorem AggressiveBot.sized_max_daily_trades (s : AggressiveBot) (d : MetricsSnapshot) :
    (s.calculate_position_size d).1.max_daily_trades = s.max_daily_trades := rfl

theorem AggressiveBot.sized_dd_limit (s : AggressiveBot) (d : MetricsSnapshot) :
    (s.calculate_position_size d).1.dd_limit = s.dd_limit := rfl

theorem AggressiveBot.sized_leverage (s : AggressiveBot) (d : MetricsSnapshot) :
    (s.calculate_position_size d).1.leverage = s.leverage := rfl

theorem AggressiveBot.sized_max_position_size (s : AggressiveBot) (d : MetricsSnapshot) :
    (s.calculate_position_size d).1.max_position_size = s.max_position_size := rfl

theorem AggressiveBot.sized_risk_multiplier (s : AggressiveBot) (d : MetricsSnapshot) :
    (s.calculate_position_size d).1.risk_multiplier = s.risk_multiplier := rfl

theorem AggressiveBot.sized_target_return (s : AggressiveBot) (d : MetricsSnapshot) :
    (s.calculate_position_size d).1.target_return = s.target_return := rfl

theorem AggressiveBot.sized_take_profit (s : AggressiveBot) (d : MetricsSnapshot) :
    (s.calculate_position_size d).1.take_profit = s.take_profit := rfl

theorem AggressiveBot.sized_emergency_stop_dd (s : AggressiveBot) (d : MetricsSnapshot) :
    (s.calculate_position_size d).1.emergency_stop_dd = s.emergency_stop_dd := rfl

theorem AggressiveBot.sized_size_reduction_dd (s : AggressiveBot) (d : MetricsSnapshot) :
    (s.calculate_position_size d).1.size_reduction_dd = s.size_reduction_dd := rfl

theorem AggressiveBot.sized_use_leverage_scaling (s : AggressiveBot) (d : MetricsSnapshot) :
    (s.calculate_position_size d).1.use_leverage_scaling = s.use_leverage_scaling := rfl

theorem AggressiveBot.sized_momentum_trading (s : AggressiveBot) (d : MetricsSnapshot) :
    (s.calculate_position_size d).1.momentum_trading = s.momentum_trading := rfl

theorem AggressiveBot.sized_breakout_focus (s : AggressiveBot) (d : MetricsSnapshot) :
    (s.calculate_position_size d).1.breakout_focus = s.breakout_focus := rfl

theorem AggressiveBot.trade_peak_agg (s : AggressiveBot) (d : MetricsSnapshot)
    (g : ℕ → ℚ) (i t : ℕ) :
    s.peak_capital ≤ (AggressiveBot.trade s d g i t).1.peak_capital ∧
    ((AggressiveBot.trade s d g i t).1.peak_capital ≠ s.peak_capital →
      (AggressiveBot.trade s d g i t).2.1.isWin ∧
      (AggressiveBot.trade s d g i t).1.peak_capital =
        (AggressiveBot.trade s d g i t).1.capital) := by
  simp only [AggressiveBot.trade]
  split_ifs <;>
    simp_all [Outcome.isWin, Outcome.isBlocked, Outcome.isLoss,
      AggressiveBot.sized_peak_capital, AggressiveBot.sized_capital] <;>
    linarith

theorem ConservativeBot.trade_peak_con (s : ConservativeBot) (d : MetricsSnapshot)
    (g : ℕ → ℚ) (i t : ℕ) :
    s.peak_capital ≤ (ConservativeBot.trade s d g i t).1.peak_capital ∧
    ((ConservativeBot.trade s d g i t).1.peak_capital ≠ s.peak_capital →
      (ConservativeBot.trade s d g i t).2.1.isWin ∧
      (ConservativeBot.trade s d g i t).1.peak_capital =
        (ConservativeBot.trade s d g i t).1.capital) := by
  simp only [ConservativeBot.trade]
  split_ifs <;>
    simp_all [Outcome.isWin, Outcome.isBlocked, Outcome.isLoss] <;>
    linarith

theorem FlipBotV2.trade_peak_flip (s : FlipBotV2) (d : MetricsSnapshot)
    (g : ℕ → ℚ) (i t : ℕ) :
    s.peak_capital ≤ (FlipBotV2.trade s d g i t).1.peak_capital ∧
    ((FlipBotV2.trade s d g i t).1.peak_capital ≠ s.peak_capital →
      (FlipBotV2.trade s d g i t).2.1.isWin ∧
      (FlipBotV2.trade s d g i t).1.peak_capital =
        (FlipBotV2.trade s d g i t).1.capital) := by
  simp only [FlipBotV2.trade]
  split_ifs <;>
    simp_all [Outcome.isWin, Outcome.isBlocked, Outcome.isLoss] <;>
    linarith

theorem AggressiveBot.run_peak_agg (s : AggressiveBot)
    (l : List (MetricsSnapshot × ℕ)) (g : ℕ → ℚ) (i : ℕ) :
    s.peak_capital ≤ (AggressiveBot.run s l g i).1.peak_capital := by
  induction l generalizing s i with
  | nil => exact le_rfl
  | cons hd tl ih =>
    obtain ⟨d, t⟩ := hd
    exact le_trans (AggressiveBot.trade_peak_agg s d g i t).1 (ih _ _)

theorem ConservativeBot.run_peak_con (s : ConservativeBot)
    (l : List (MetricsSnapshot × ℕ)) (g : ℕ → ℚ) (i : ℕ) :
    s.peak_capital ≤ (ConservativeBot.run s l g i).1.peak_capital := by
  induction l generalizing s i with
  | nil => exact le_rfl
  | cons hd tl ih =>
    obtain ⟨d, t⟩ := hd
    exact le_trans (ConservativeBot.trade_peak_con s d g i t).1 (ih _ _)

theorem FlipBotV2.run_peak_flip (s : FlipBotV2)
    (l : List (MetricsSnapshot × ℕ)) (g : ℕ → ℚ) (i : ℕ) :
    s.peak_capital ≤ (FlipBotV2.run s l g i).1.peak_capital := by
  induction l generalizing s i with
  | nil => exact le_rfl
  | cons hd tl ih =>
    obtain ⟨d, t⟩ := hd
    exact le_trans (FlipBotV2.trade_peak_flip s d g i t).1 (ih _ _)

/-- C6: `peak_capital` is monotonically non-decreasing for every profile: a
single `trade` never decreases it, and whenever it changes the outcome was a
WIN and the new peak equals the new capital (which then exceeded the old
peak); it is non-decreasing along every sequence of trades, and the daily
resets (`reset_daily_stats`, `end_of_day_summary`) leave it untouched. -/
theorem C6_peak_capital_monotone :
    (∀ (s : AggressiveBot) (d : MetricsSnapshot) (g : ℕ → ℚ) (i t : ℕ),
      s.peak_capital ≤ (AggressiveBot.trade s d g i t).1.peak_capital ∧
      ((AggressiveBot.trade s d g i t).1.peak_capital ≠ s.peak_capital →
        (AggressiveBot.trade s d g i t).2.1.isWin ∧
        (AggressiveBot.trade s d g i t).1.peak_capital =
          (AggressiveBot.trade s d g i t).1.capital)) ∧
    (∀ (s : ConservativeBot) (d : MetricsSnapshot) (g : ℕ → ℚ) (i t : ℕ),
      s.peak_capital ≤ (ConservativeBot.trade s d g i t).1.peak_capital ∧
      ((ConservativeBot.trade s d g i t).1.peak_capital ≠ s.peak_capital →
        (ConservativeBot.trade s d g i t).2.1.isWin ∧
        (ConservativeBot.trade s d g i t).1.peak_capital =
          (ConservativeBot.trade s d g i t).1.capital)) ∧
    (∀ (s : FlipBotV2) (d : MetricsSnapshot) (g : ℕ → ℚ) (i t : ℕ),
      s.peak_capital ≤ (FlipBotV2.trade s d g i t).1.peak_capital ∧
      ((FlipBotV2.trade s d g i t).1.peak_capital ≠ s.peak_capital →
        (FlipBotV2.trade s d g i t).2.1.isWin ∧
        (FlipBotV2.trade s d g i t).1.peak_capital =
          (FlipBotV2.trade s d g i t).1.capital)) ∧
    (∀ (s : AggressiveBot) (l : List (MetricsSnapshot × ℕ)) (g : ℕ → ℚ) (i : ℕ),
      s.peak_capital ≤ (AggressiveBot.run s l g i).1.peak_capital) ∧
    (∀ (s : ConservativeBot) (l : List (MetricsSnapshot × ℕ)) (g : ℕ → ℚ) (i : ℕ),
      s.peak_capital ≤ (ConservativeBot.run s l g i).1.peak_capital) ∧
    (∀ (s : FlipBotV2) (l : List (MetricsSnapshot × ℕ)) (g : ℕ → ℚ) (i : ℕ),
      s.peak_capital ≤ (FlipBotV2.run s l g i).1.peak_capital) ∧
    (∀ s : AggressiveBot, s.reset_daily_stats.peak_capital = s.peak_capital) ∧
    (∀ (s : ConservativeBot) (t : ℕ),
      (s.end_of_day_summary t).1.peak_capital = s.peak_capital) :=
  ⟨AggressiveBot.trade_peak_agg, ConservativeBot.trade_peak_con, FlipBotV2.trade_peak_flip,
    AggressiveBot.run_peak_agg, ConservativeBot.run_peak_con, FlipBotV2.run_peak_flip,
    fun _ => rfl, fun _ _ => rfl⟩

/-- Witness for C6: a concrete aggressive WIN that raises the peak (so the
change-implies-WIN hypothesis is discharged at a real input). -/
theorem C6_peak_capital_monotone_witness :
    ((AggressiveBot.mkDefault 10000).peak_capital ≤
      (AggressiveBot.trade (AggressiveBot.mkDefault 10000) snapAgg gZero 0 1).1.peak_capital) ∧
    (AggressiveBot.trade (AggressiveBot.mkDefault 10000) snapAgg gZero 0 1).2.1.isWin ∧
    (AggressiveBot.trade (AggressiveBot.mkDefault 10000) snapAgg gZero 0 1).1.peak_capital =
      (AggressiveBot.trade (AggressiveBot.mkDefault 10000) snapAgg gZero 0 1).1.capital := by
  have hne : (AggressiveBot.trade (AggressiveBot.mkDefault 10000) snapAgg gZero 0 1).1.peak_capital ≠
      (AggressiveBot.mkDefault 10000).peak_capital := by
    norm_num [AggressiveBot.trade, AggressiveBot.calculate_position_size,
      AggressiveBot.position_factors, AggressiveBot.signal_ok, AggressiveBot.current_dd,
      AggressiveBot.mkDefault, AggressiveBot.regime_success_adj,
      AggressiveBot.regime_leverage, AggressiveBot.regime_profit_mult,
      AggressiveBot.regime_loss_adj, abs_of_nonneg, regime_tb_ne_sideways,
      snapAgg, gZero]
  exact ⟨(C6_peak_capital_monotone.1 (AggressiveBot.mkDefault 10000) snapAgg gZero 0 1).1,
    (C6_peak_capital_monotone.1 (AggressiveBot.mkDefault 10000) snapAgg gZero 0 1).2 hne⟩

theorem AggressiveBot.trade_daily_trades_agg (s : AggressiveBot) (d : MetricsSnapshot)
    (g : ℕ → ℚ) (i t : ℕ) :
    ((AggressiveBot.trade s d g i t).2.1.isBlocked →
      (AggressiveBot.trade s d g i t).1.daily_trades = s.daily_trades) ∧
    (¬ (AggressiveBot.trade s d g i t).2.1.isBlocked →
      (AggressiveBot.trade s d g i t).1.daily_trades = s.daily_trades + 1) := by
  simp only [AggressiveBot.trade]
  split_ifs <;>
    simp [Outcome.isBlocked, AggressiveBot.sized_daily_trades]

theorem ConservativeBot.trade_daily_trades_con (s : ConservativeBot) (d : MetricsSnapshot)
    (g : ℕ → ℚ) (i t : ℕ) :
    ((ConservativeBot.trade s d g i t).2.1.isBlocked →
      (ConservativeBot.trade s d g i t).1.daily_trades = s.daily_trades) ∧
    (¬ (ConservativeBot.trade s d g i t).2.1.isBlocked →
      (ConservativeBot.trade s d g i t).1.daily_trades = s.daily_trades + 1) := by
  simp only [ConservativeBot.trade]
  split_ifs <;>
    simp [Outcome.isBlocked]

theorem FlipBotV2.trade_daily_trades_flip (s : FlipBotV2) (d : MetricsSnapshot)
    (g : ℕ → ℚ) (i t : ℕ) :
    ((FlipBotV2.trade s d g i t).2.1.isBlocked →
      (FlipBotV2.trade s d g i t).1.daily_trades = s.daily_trades) ∧
    (¬ (FlipBotV2.trade s d g i t).2.1.isBlocked →
      (FlipBotV2.trade s d g i t).1.daily_trades = s.daily_trades + 1) := by
  simp only [FlipBotV2.trade]
  split_ifs <;>
    simp [Outcome.isBlocked]

theorem AggressiveBot.trade_daily_cap_agg (s : AggressiveBot) (d : MetricsSnapshot)
    (g : ℕ → ℚ) (i t : ℕ) (h : s.daily_trades ≥ s.max_daily_trades) :
    AggressiveBot.trade s d g i t = (s, .blocked .dailyLimit, i) := by
  unfold AggressiveBot.trade
  rw [if_pos h]

theorem ConservativeBot.trade_daily_cap_con (s : ConservativeBot) (d : MetricsSnapshot)
    (g : ℕ → ℚ) (i t : ℕ) (h : s.daily_trades ≥ s.max_daily_trades) :
    ConservativeBot.trade s d g i t = (s, .blocked .dailyLimit, i) := by
  unfold ConservativeBot.trade
  rw [if_pos h]

theorem FlipBotV2.trade_daily_cap_flip (s : FlipBotV2) (d : MetricsSnapshot)
    (g : ℕ → ℚ) (i t : ℕ) (h : s.daily_trades ≥ s.max_daily_trades) :
    FlipBotV2.trade s d g i t = (s, .blocked .dailyLimit, i) := by
  unfold FlipBotV2.trade
  rw [if_pos h]

/-- C4 (amended): for every profile each non-blocked trade increments
`daily_trades` by exactly one and each blocked trade leaves it unchanged;
once `daily_trades ≥ max_daily_trades` every `trade` call returns
Blocked(daily limit) with the state unchanged, whatever the snapshot;
`AggressiveBot.reset_daily_stats` and `ConservativeBot.end_of_day_summary`
restore trading capacity by setting `daily_trades` to 0.  (`FlipBotV2`
defines no daily-reset operation; its only state-changing operation, `trade`,
can never clear the limit.) -/
theorem C4_daily_limit_and_reset :
    (∀ (s : AggressiveBot) (d : MetricsSnapshot) (g : ℕ → ℚ) (i t : ℕ),
      ((AggressiveBot.trade s d g i t).2.1.isBlocked →
        (AggressiveBot.trade s d g i t).1.daily_trades = s.daily_trades) ∧
      (¬ (AggressiveBot.trade s d g i t).2.1.isBlocked →
        (AggressiveBot.trade s d g i t).1.daily_trades = s.daily_trades + 1)) ∧
    (∀ (s : ConservativeBot) (d : MetricsSnapshot) (g : ℕ → ℚ) (i t : ℕ),
      ((ConservativeBot.trade s d g i t).2.1.isBlocked →
        (ConservativeBot.trade s d g i t).1.daily_trades = s.daily_trades) ∧
      (¬ (ConservativeBot.trade s d g i t).2.1.isBlocked →
        (ConservativeBot.trade s d g i t).1.daily_trades = s.daily_trades + 1)) ∧
    (∀ (s : FlipBotV2) (d : MetricsSnapshot) (g : ℕ → ℚ) (i t : ℕ),
      ((FlipBotV2.trade s d g i t).2.1.isBlocked →
        (FlipBotV2.trade s d g i t).1.daily_trades = s.daily_trades) ∧
      (¬ (FlipBotV2.trade s d g i t).2.1.isBlocked →
        (FlipBotV2.trade s d g i t).1.daily_trades = s.daily_trades + 1)) ∧
    (∀ (s : AggressiveBot) (d : MetricsSnapshot) (g : ℕ → ℚ) (i t : ℕ),
      s.daily_trades ≥ s.max_daily_trades →
      AggressiveBot.trade s d g i t = (s, .blocked .dailyLimit, i)) ∧
    (∀ (s : ConservativeBot) (d : MetricsSnapshot) (g : ℕ → ℚ) (i t : ℕ),
      s.daily_trades ≥ s.max_daily_trades →
      ConservativeBot.trade s d g i t = (s, .blocked .dailyLimit, i)) ∧
    (∀ (s : FlipBotV2) (d : MetricsSnapshot) (g : ℕ → ℚ) (i t : ℕ),
      s.daily_trades ≥ s.max_daily_trades →
      FlipBotV2.trade s d g i t = (s, .blocked .dailyLimit, i)) ∧
    (∀ s : AggressiveBot, s.reset_daily_stats.daily_trades = 0) ∧
    (∀ (s : ConservativeBot) (t : ℕ), (s.end_of_day_summary t).1.daily_trades = 0) :=
  ⟨AggressiveBot.trade_daily_trades_agg, ConservativeBot.trade_daily_trades_con,
    FlipBotV2.trade_daily_trades_flip, AggressiveBot.trade_daily_cap_agg,
    ConservativeBot.trade_daily_cap_con, FlipBotV2.trade_daily_cap_flip,
    fun _ => rfl, fun _ _ => rfl⟩

/-- Witness for C4: a concrete non-blocked aggressive trade increments
`daily_trades` to 1, and each profile at its cap is blocked by the daily
limit on a gate-passing snapshot. -/
theorem C4_daily_limit_and_reset_witness :
    (AggressiveBot.trade (AggressiveBot.mkDefault 10000) snapAgg gZero 0 1).1.daily_trades =
      0 + 1 ∧
    AggressiveBot.trade sAggFull snapAgg gZero 0 1 = (sAggFull, .blocked .dailyLimit, 0) ∧
    ConservativeBot.trade sConFull snapCon gZero 0 1 = (sConFull, .blocked .dailyLimit, 0) ∧
    FlipBotV2.trade sFlipFull snapFlip gZero 0 1 = (sFlipFull, .blocked .dailyLimit, 0) := by
  have hnb : ¬ (AggressiveBot.trade (AggressiveBot.mkDefault 10000) snapAgg gZero 0 1).2.1.isBlocked := by
    norm_num [AggressiveBot.trade, AggressiveBot.calculate_position_size,
      AggressiveBot.position_factors, AggressiveBot.signal_ok, AggressiveBot.current_dd,
      AggressiveBot.mkDefault, AggressiveBot.regime_success_adj,
      AggressiveBot.regime_leverage, AggressiveBot.regime_profit_mult,
      abs_of_nonneg, regime_tb_ne_sideways, snapAgg, gZero, Outcome.isBlocked]
  refine ⟨?_, C4_daily_limit_and_reset.2.2.2.1 sAggFull snapAgg gZero 0 1 (le_refl 15),
    C4_daily_limit_and_reset.2.2.2.2.1 sConFull snapCon gZero 0 1 (le_refl 4),
    C4_daily_limit_and_reset.2.2.2.2.2.1 sFlipFull snapFlip gZero 0 1 (le_refl 15)⟩
  have h1 := (C4_daily_limit_and_reset.1 (AggressiveBot.mkDefault 10000) snapAgg gZero 0 1).2 hnb
  simpa [AggressiveBot.mkDefault] using h1

/-- Counterexample to C4 as stated: the flip profile has NO daily-reset
operation (`flip_v2.py` defines only `check_signal`,
`calculate_position_size`, `trade` and `get_status`; nothing ever writes
`daily_trades` except the increment in `trade`).  Concretely, from the state
reached after exactly 15 non-blocked trades (`daily_trades = 15 =
max_daily_trades`), `trade` — the engine's only state-changing operation —
returns Blocked(daily limit) on a gate-passing snapshot and hands back the
state unchanged, so no sequence of engine calls can set `daily_trades` back
to 0 or restore trading capacity. -/
theorem C4_counterexample_flip_has_no_reset :
    FlipBotV2.check_signal snapFlip = true ∧
    sFlipFull.daily_trades = sFlipFull.max_daily_trades ∧
    FlipBotV2.trade sFlipFull snapFlip gZero 0 1 = (sFlipFull, .blocked .dailyLimit, 0) ∧
    (FlipBotV2.trade sFlipFull snapFlip gZero 0 1).1.daily_trades ≠ 0 := by
  refine ⟨by norm_num [FlipBotV2.check_signal, abs_of_nonneg, snapFlip], rfl,
    FlipBotV2.trade_daily_cap_flip _ _ _ _ _ (le_refl 15), ?_⟩
  rw [FlipBotV2.trade_daily_cap_flip _ _ _ _ _ (le_refl 15)]
  norm_num [sFlipFull, FlipBotV2.mkDefault]

/-- C7 (amended): the RNG cursor advances by exactly the per-profile,
per-branch draw count: 0 for every blocked call; 2 for every WIN
(branch-selector draw plus payoff-magnitude draw); on a LOSS, 2 for the flip
profile but only 1 for the aggressive and conservative profiles, whose LOSS
branches consume no payoff-magnitude draw.  No other stochastic steps
occur. -/
theorem C7_draws_per_trade :
    (∀ (s : AggressiveBot) (d : MetricsSnapshot) (g : ℕ → ℚ) (i t : ℕ),
      (AggressiveBot.trade s d g i t).2.2 =
        i + AggressiveBot.drawsOf (AggressiveBot.trade s d g i t).2.1) ∧
    (∀ (s : ConservativeBot) (d : MetricsSnapshot) (g : ℕ → ℚ) (i t : ℕ),
      (ConservativeBot.trade s d g i t).2.2 =
        i + ConservativeBot.drawsOf (ConservativeBot.trade s d g i t).2.1) ∧
    (∀ (s : FlipBotV2) (d : MetricsSnapshot) (g : ℕ → ℚ) (i t : ℕ),
      (FlipBotV2.trade s d g i t).2.2 =
        i + FlipBotV2.drawsOf (FlipBotV2.trade s d g i t).2.1) := by
  refine ⟨fun s d g i t => ?_, fun s d g i t => ?_, fun s d g i t => ?_⟩
  · simp only [AggressiveBot.trade]
    split_ifs <;> simp [AggressiveBot.drawsOf]
  · simp only [ConservativeBot.trade]
    split_ifs <;> simp [ConservativeBot.drawsOf]
  · simp only [FlipBotV2.trade]
    split_ifs <;> simp [FlipBotV2.drawsOf]

/-- Counterexample to C7 as stated: a concrete non-blocked aggressive trade
that resolves to a LOSS (draw 0.9 is at the 0.80 probability ceiling)
advances the RNG cursor from 0 to 1, not 2 — the aggressive LOSS branch
consumes no payoff-magnitude draw. -/
theorem C7_counterexample_aggressive_loss_one_draw :
    (AggressiveBot.trade (AggressiveBot.mkDefault 10000) snapAgg gNine 0 1).2.1.isLoss ∧
    (AggressiveBot.trade (AggressiveBot.mkDefault 10000) snapAgg gNine 0 1).2.2 = 1 ∧
    (AggressiveBot.trade (AggressiveBot.mkDefault 10000) snapAgg gNine 0 1).2.2 ≠ 0 + 2 := by
  norm_num [AggressiveBot.trade, AggressiveBot.calculate_position_size,
    AggressiveBot.position_factors, AggressiveBot.signal_ok, AggressiveBot.current_dd,
    AggressiveBot.mkDefault, AggressiveBot.regime_success_adj,
    AggressiveBot.regime_leverage, AggressiveBot.regime_profit_mult,
    AggressiveBot.regime_loss_adj, abs_of_nonneg, regime_tb_ne_sideways,
    snapAgg, gNine, Outcome.isLoss]

/-- C8 (amended): the aggressive profile's sizing applies the multiplier
`0.8 + 0.4·|momentum|`, a linear map of `|momentum|`: its pre-clamp factor
product for two snapshots differing only in momentum satisfies exactly that
linear-factor exchange law (and the stateful hot-streak update is
momentum-independent).  The flip profile's `calculate_position_size`, by
contrast, never reads momentum at all: it is invariant under any change of
the snapshot's momentum field (momentum enters flip only through
`check_signal`). -/
theorem C8_momentum_multiplier :
    (∀ (s : AggressiveBot) (d : MetricsSnapshot) (m1 m2 : ℚ),
      (AggressiveBot.position_factors s { d with momentum := some m1 }).2 *
          (0.8 + |m2| * 0.4) =
        (AggressiveBot.position_factors s { d with momentum := some m2 }).2 *
          (0.8 + |m1| * 0.4) ∧
      (AggressiveBot.position_factors s { d with momentum := some m1 }).1 =
        (AggressiveBot.position_factors s { d with momentum := some m2 }).1) ∧
    (∀ (s : FlipBotV2) (d : MetricsSnapshot) (m1 m2 : Option ℚ),
      s.calculate_position_size { d with momentum := m1 } =
        s.calculate_position_size { d with momentum := m2 }) := by
  refine ⟨fun s d m1 m2 => ⟨?_, rfl⟩, fun s d m1 m2 => rfl⟩
  simp only [AggressiveBot.position_factors, Option.getD_some]
  ring

/-- Counterexample to C8 as stated: two snapshots that differ only in
momentum (0.5 vs 0.9), both accepted by the flip gate, produce IDENTICAL
flip position sizes — not sizes related by a nontrivial linear momentum
factor. -/
theorem C8_counterexample_flip_size_ignores_momentum :
    FlipBotV2.check_signal snapFlip = true ∧
    FlipBotV2.check_signal snapFlipHiM = true ∧
    snapFlip.momentum ≠ snapFlipHiM.momentum ∧
    (FlipBotV2.mkDefault 10000).calculate_position_size snapFlipHiM =
      (FlipBotV2.mkDefault 10000).calculate_position_size snapFlip :=
  ⟨by norm_num [FlipBotV2.check_signal, abs_of_nonneg, snapFlip],
    by norm_num [FlipBotV2.check_signal, abs_of_nonneg, snapFlip, snapFlipHiM],
    by norm_num [snapFlip, snapFlipHiM],
    rfl⟩

theorem CTradeRecord.filter_isWin_length_mod_time (a : List CTradeRecord) :
    ∀ b : List CTradeRecord,
    a.map CTradeRecord.eraseTime = b.map CTradeRecord.eraseTime →
    (a.filter fun r => r.isWinRec).length = (b.filter fun r => r.isWinRec).length := by
  induction a with
  | nil =>
    intro b h
    cases b with
    | nil => rfl
    | cons r tl => simp at h
  | cons r tl ih =>
    intro b h
    cases b with
    | nil => simp at h
    | cons r2 tl2 =>
      simp only [List.map_cons, List.cons.injEq] at h
      have hw : r.isWinRec = r2.isWinRec := by
        cases r <;> cases r2 <;>
          simp_all [CTradeRecord.eraseTime, CTradeRecord.isWinRec]
      cases hb : r2.isWinRec <;>
        simp [List.filter_cons, hw, hb, ih tl2 h.2]

theorem ConservativeBot.streak_mult_mod_time (l1 l2 : List CTradeRecord)
    (h : l1.map CTradeRecord.eraseTime = l2.map CTradeRecord.eraseTime) :
    ConservativeBot.streak_mult l1 = ConservativeBot.streak_mult l2 := by
  have hlen : l1.length = l2.length := by
    have h2 := congrArg List.length h
    simpa using h2
  have hdrop : (l1.drop (l1.length - 10)).map CTradeRecord.eraseTime =
      (l2.drop (l2.length - 10)).map CTradeRecord.eraseTime := by
    rw [List.map_drop, List.map_drop, h, hlen]
  have hrlen : (l1.drop (l1.length - 10)).length = (l2.drop (l2.length - 10)).length := by
    have h2 := congrArg List.length hdrop
    simpa using h2
  have hfil := CTradeRecord.filter_isWin_length_mod_time _ _ hdrop
  simp only [ConservativeBot.streak_mult, List.isEmpty_iff_length_eq_zero, hrlen, hfil]

set_option maxHeartbeats 1000000 in
theorem AggressiveBot.trade_mod_time_agg (s1 s2 : AggressiveBot) (d : MetricsSnapshot)
    (g : ℕ → ℚ) (i t1 t2 : ℕ) (h : s1.eraseTimes = s2.eraseTimes) :
    (AggressiveBot.trade s1 d g i t1).2 = (AggressiveBot.trade s2 d g i t2).2 ∧
    (AggressiveBot.trade s1 d g i t1).1.eraseTimes =
      (AggressiveBot.trade s2 d g i t2).1.eraseTimes := by
  obtain ⟨c, ic, lv, ddl, mps, rm, trg, sl, tp, mdt, esd, srd, uls, mt, bf, dt, cw,
    cl, mcw, th1, pk, dp, hsm⟩ := s1
  obtain ⟨c2, ic2, lv2, ddl2, mps2, rm2, trg2, sl2, tp2, mdt2, esd2, srd2, uls2, mt2,
    bf2, dt2, cw2, cl2, mcw2, th2, pk2, dp2, hsm2⟩ := s2
  simp only [AggressiveBot.eraseTimes, AggressiveBot.mk.injEq] at h
  obtain ⟨rfl, rfl, rfl, rfl, rfl, rfl, rfl, rfl, rfl, rfl, rfl, rfl, rfl, rfl, rfl,
    rfl, rfl, rfl, rfl, hth, rfl, rfl, rfl⟩ := h
  have hsz2 : (AggressiveBot.calculate_position_size
      ⟨c, ic, lv, ddl, mps, rm, trg, sl, tp, mdt, esd, srd, uls, mt, bf, dt, cw, cl,
        mcw, th1, pk, dp, hsm⟩ d).2 =
      (AggressiveBot.calculate_position_size
      ⟨c, ic, lv, ddl, mps, rm, trg, sl, tp, mdt, esd, srd, uls, mt, bf, dt, cw, cl,
        mcw, th2, pk, dp, hsm⟩ d).2 := rfl
  have hhot : (AggressiveBot.calculate_position_size
      ⟨c, ic, lv, ddl, mps, rm, trg, sl, tp, mdt, esd, srd, uls, mt, bf, dt, cw, cl,
        mcw, th1, pk, dp, hsm⟩ d).1.hot_streak_multiplier =
      (AggressiveBot.calculate_position_size
      ⟨c, ic, lv, ddl, mps, rm, trg, sl, tp, mdt, esd, srd, uls, mt, bf, dt, cw, cl,
        mcw, th2, pk, dp, hsm⟩ d).1.hot_streak_multiplier := rfl
  constructor
  · simp only [AggressiveBot.trade, AggressiveBot.current_dd, hsz2, hhot,
      AggressiveBot.sized_capital, AggressiveBot.sized_consecutive_wins,
      AggressiveBot.sized_consecutive_losses, AggressiveBot.sized_stop_loss,
      AggressiveBot.sized_peak_capital, AggressiveBot.sized_daily_trades,
      AggressiveBot.sized_daily_pnl, AggressiveBot.sized_trade_history,
      AggressiveBot.sized_max_consecutive_wins]
    split_ifs <;> rfl
  · simp only [AggressiveBot.trade, AggressiveBot.current_dd, hsz2, hhot,
      AggressiveBot.sized_capital, AggressiveBot.sized_consecutive_wins,
      AggressiveBot.sized_consecutive_losses, AggressiveBot.sized_stop_loss,
      AggressiveBot.sized_peak_capital, AggressiveBot.sized_daily_trades,
      AggressiveBot.sized_daily_pnl, AggressiveBot.sized_trade_history,
      AggressiveBot.sized_max_consecutive_wins]
    split_ifs <;>
      simp [AggressiveBot.eraseTimes, AggressiveBot.sized_initial_capital,
        AggressiveBot.sized_leverage, AggressiveBot.sized_dd_limit,
        AggressiveBot.sized_max_position_size, AggressiveBot.sized_risk_multiplier,
        AggressiveBot.sized_target_return, AggressiveBot.sized_take_profit,
        AggressiveBot.sized_max_daily_trades, AggressiveBot.sized_emergency_stop_dd,
        AggressiveBot.sized_size_reduction_dd, AggressiveBot.sized_use_leverage_scaling,
        AggressiveBot.sized_momentum_trading, AggressiveBot.sized_breakout_focus,
        AggressiveBot.sized_capital, AggressiveBot.sized_consecutive_wins,
        AggressiveBot.sized_consecutive_losses, AggressiveBot.sized_stop_loss,
        AggressiveBot.sized_peak_capital, AggressiveBot.sized_daily_trades,
        AggressiveBot.sized_daily_pnl, AggressiveBot.sized_trade_history,
        AggressiveBot.sized_max_consecutive_wins,
        List.map_append, ATradeRecord.eraseTime, hth, hhot]

set_option maxHeartbeats 1000000 in
theorem ConservativeBot.trade_mod_time_con (s1 s2 : ConservativeBot) (d : MetricsSnapshot)
    (g : ℕ → ℚ) (i t1 t2 : ℕ) (h : s1.eraseTimes = s2.eraseTimes) :
    (ConservativeBot.trade s1 d g i t1).2 = (ConservativeBot.trade s2 d g i t2).2 ∧
    (ConservativeBot.trade s1 d g i t1).1.eraseTimes =
      (ConservativeBot.trade s2 d g i t2).1.eraseTimes := by
  obtain ⟨c, ic, dtg, rc, md, sl, mdt, mc, mwr, pt, esd, srd, dt, dp, th1, dh1, cpd,
    tpd, pk, sv⟩ := s1
  obtain ⟨c2, ic2, dtg2, rc2, md2, sl2, mdt2, mc2, mwr2, pt2, esd2, srd2, dt2, dp2,
    th2, dh2, cpd2, tpd2, pk2, sv2⟩ := s2
  simp only [ConservativeBot.eraseTimes, ConservativeBot.mk.injEq] at h
  obtain ⟨rfl, rfl, rfl, rfl, rfl, rfl, rfl, rfl, rfl, rfl, rfl, rfl, rfl, rfl, hth,
    hdh, rfl, rfl, rfl, rfl⟩ := h
  have hsize : ConservativeBot.calculate_position_size
      ⟨c, ic, dtg, rc, md, sl, mdt, mc, mwr, pt, esd, srd, dt, dp, th1, dh1, cpd,
        tpd, pk, sv⟩ d =
      ConservativeBot.calculate_position_size
      ⟨c, ic, dtg, rc, md, sl, mdt, mc, mwr, pt, esd, srd, dt, dp, th2, dh2, cpd,
        tpd, pk, sv⟩ d := by
    simp only [ConservativeBot.calculate_position_size, ConservativeBot.current_dd,
      ConservativeBot.daily_return, ConservativeBot.streak_mult_mod_time th1 th2 hth]
  constructor
  · simp only [ConservativeBot.trade, hsize, ConservativeBot.can_trade,
      ConservativeBot.current_dd, ConservativeBot.daily_return]
    split_ifs <;> rfl
  · simp only [ConservativeBot.trade, hsize, ConservativeBot.can_trade,
      ConservativeBot.current_dd, ConservativeBot.daily_return]
    split_ifs <;>
      simp [ConservativeBot.eraseTimes, List.map_append, CTradeRecord.eraseTime,
        hth, hdh]

theorem AggressiveBot.run_mod_time_agg (l1 : List (MetricsSnapshot × ℕ)) :
    ∀ (l2 : List (MetricsSnapshot × ℕ)) (s1 s2 : AggressiveBot) (g : ℕ → ℚ) (i : ℕ),
    s1.eraseTimes = s2.eraseTimes → l1.map Prod.fst = l2.map Prod.fst →
    (AggressiveBot.run s1 l1 g i).2 = (AggressiveBot.run s2 l2 g i).2 ∧
    (AggressiveBot.run s1 l1 g i).1.eraseTimes =
      (AggressiveBot.run s2 l2 g i).1.eraseTimes := by
  induction l1 with
  | nil =>
    intro l2 s1 s2 g i hs hl
    cases l2 with
    | nil => exact ⟨rfl, hs⟩
    | cons p tl => simp at hl
  | cons p tl ih =>
    intro l2 s1 s2 g i hs hl
    cases l2 with
    | nil => simp at hl
    | cons p2 tl2 =>
      obtain ⟨d, t⟩ := p
      obtain ⟨d2, t2⟩ := p2
      simp only [List.map_cons, List.cons.injEq] at hl
      obtain ⟨hd, htl⟩ := hl
      subst hd
      have hstep := AggressiveBot.trade_mod_time_agg s1 s2 d g i t t2 hs
      have hcursor : (AggressiveBot.trade s1 d g i t).2.2 =
          (AggressiveBot.trade s2 d g i t2).2.2 := congrArg Prod.snd hstep.1
      have houtcome : (AggressiveBot.trade s1 d g i t).2.1 =
          (AggressiveBot.trade s2 d g i t2).2.1 := congrArg Prod.fst hstep.1
      have ihr := ih tl2 (AggressiveBot.trade s1 d g i t).1
        (AggressiveBot.trade s2 d g i t2).1 g (AggressiveBot.trade s1 d g i t).2.2
        hstep.2 htl
      constructor
      · simp only [AggressiveBot.run]
        rw [houtcome, ← hcursor, ihr.1]
      · simp only [AggressiveBot.run]
        rw [← hcursor]
        exact ihr.2

theorem ConservativeBot.run_mod_time_con (l1 : List (MetricsSnapshot × ℕ)) :
    ∀ (l2 : List (MetricsSnapshot × ℕ)) (s1 s2 : ConservativeBot) (g : ℕ → ℚ) (i : ℕ),
    s1.eraseTimes = s2.eraseTimes → l1.map Prod.fst = l2.map Prod.fst →
    (ConservativeBot.run s1 l1 g i).2 = (ConservativeBot.run s2 l2 g i).2 ∧
    (ConservativeBot.run s1 l1 g i).1.eraseTimes =
      (ConservativeBot.run s2 l2 g i).1.eraseTimes := by
  induction l1 with
  | nil =>
    intro l2 s1 s2 g i hs hl
    cases l2 with
    | nil => exact ⟨rfl, hs⟩
    | cons p tl => simp at hl
  | cons p tl ih =>
    intro l2 s1 s2 g i hs hl
    cases l2 with
    | nil => simp at hl
    | cons p2 tl2 =>
      obtain ⟨d, t⟩ := p
      obtain ⟨d2, t2⟩ := p2
      simp only [List.map_cons, List.cons.injEq] at hl
      obtain ⟨hd, htl⟩ := hl
      subst hd
      have hstep := ConservativeBot.trade_mod_time_con s1 s2 d g i t t2 hs
      have hcursor : (ConservativeBot.trade s1 d g i t).2.2 =
          (ConservativeBot.trade s2 d g i t2).2.2 := congrArg Prod.snd hstep.1
      have houtcome : (ConservativeBot.trade s1 d g i t).2.1 =
          (ConservativeBot.trade s2 d g i t2).2.1 := congrArg Prod.fst hstep.1
      have ihr := ih tl2 (ConservativeBot.trade s1 d g i t).1
        (ConservativeBot.trade s2 d g i t2).1 g (ConservativeBot.trade s1 d g i t).2.2
        hstep.2 htl
      constructor
      · simp only [ConservativeBot.run]
        rw [houtcome, ← hcursor, ihr.1]
      · simp only [ConservativeBot.run]
        rw [← hcursor]
        exact ihr.2

theorem FlipBotV2.run_snapshots_only (l1 : List (MetricsSnapshot × ℕ)) :
    ∀ (l2 : List (MetricsSnapshot × ℕ)) (s : FlipBotV2) (g : ℕ → ℚ) (i : ℕ),
    l1.map Prod.fst = l2.map Prod.fst →
    FlipBotV2.run s l1 g i = FlipBotV2.run s l2 g i := by
  induction l1 with
  | nil =>
    intro l2 s g i hl
    cases l2 with
    | nil => rfl
    | cons p tl => simp at hl
  | cons p tl ih =>
    intro l2 s g i hl
    cases l2 with
    | nil => simp at hl
    | cons p2 tl2 =>
      obtain ⟨d, t⟩ := p
      obtain ⟨d2, t2⟩ := p2
      simp only [List.map_cons, List.cons.injEq] at hl
      obtain ⟨hd, htl⟩ := hl
      subst hd
      have hstep : FlipBotV2.trade s d g i t = FlipBotV2.trade s d g i t2 := rfl
      simp only [FlipBotV2.run]
      rw [hstep, ih tl2 (FlipBotV2.trade s d g i t2).1 g
        (FlipBotV2.trade s d g i t2).2.2 htl]

/-- C9 (amended): with the RNG draw stream, the snapshot sequence AND the
record-timestamp clock all fixed, repeated runs of every profile are
identical (same Outcome sequence, same final state, same final RNG cursor);
and the clock inputs influence nothing but the stored timestamps: runs over
the same snapshots and draws with different clock inputs produce the same
outcome sequence and cursor, and final states identical up to
`eraseTimes` (for flip, identical outright — it stores no records). -/
theorem C9_determinism_under_fixed_rng :
    (∀ (s1 s2 : AggressiveBot) (l1 l2 : List (MetricsSnapshot × ℕ)) (g1 g2 : ℕ → ℚ)
      (i1 i2 : ℕ), s1 = s2 → l1 = l2 → g1 = g2 → i1 = i2 →
      AggressiveBot.run s1 l1 g1 i1 = AggressiveBot.run s2 l2 g2 i2) ∧
    (∀ (s1 s2 : ConservativeBot) (l1 l2 : List (MetricsSnapshot × ℕ)) (g1 g2 : ℕ → ℚ)
      (i1 i2 : ℕ), s1 = s2 → l1 = l2 → g1 = g2 → i1 = i2 →
      ConservativeBot.run s1 l1 g1 i1 = ConservativeBot.run s2 l2 g2 i2) ∧
    (∀ (s1 s2 : FlipBotV2) (l1 l2 : List (MetricsSnapshot × ℕ)) (g1 g2 : ℕ → ℚ)
      (i1 i2 : ℕ), s1 = s2 → l1 = l2 → g1 = g2 → i1 = i2 →
      FlipBotV2.run s1 l1 g1 i1 = FlipBotV2.run s2 l2 g2 i2) ∧
    (∀ (s : AggressiveBot) (l1 l2 : List (MetricsSnapshot × ℕ)) (g : ℕ → ℚ) (i : ℕ),
      l1.map Prod.fst = l2.map Prod.fst →
      (AggressiveBot.run s l1 g i).2 = (AggressiveBot.run s l2 g i).2 ∧
      (AggressiveBot.run s l1 g i).1.eraseTimes =
        (AggressiveBot.run s l2 g i).1.eraseTimes) ∧
    (∀ (s : ConservativeBot) (l1 l2 : List (MetricsSnapshot × ℕ)) (g : ℕ → ℚ) (i : ℕ),
      l1.map Prod.fst = l2.map Prod.fst →
      (ConservativeBot.run s l1 g i).2 = (ConservativeBot.run s l2 g i).2 ∧
      (ConservativeBot.run s l1 g i).1.eraseTimes =
        (ConservativeBot.run s l2 g i).1.eraseTimes) ∧
    (∀ (s : FlipBotV2) (l1 l2 : List (MetricsSnapshot × ℕ)) (g : ℕ → ℚ) (i : ℕ),
      l1.map Prod.fst = l2.map Prod.fst →
      FlipBotV2.run s l1 g i = FlipBotV2.run s l2 g i) := by
  refine ⟨?_, ?_, ?_, ?_, ?_, ?_⟩
  · intro s1 s2 l1 l2 g1 g2 i1 i2 hs hl hg hi
    rw [hs, hl, hg, hi]
  · intro s1 s2 l1 l2 g1 g2 i1 i2 hs hl hg hi
    rw [hs, hl, hg, hi]
  · intro s1 s2 l1 l2 g1 g2 i1 i2 hs hl hg hi
    rw [hs, hl, hg, hi]
  · intro s l1 l2 g i hl
    exact AggressiveBot.run_mod_time_agg l1 l2 s s g i rfl hl
  · intro s l1 l2 g i hl
    exact ConservativeBot.run_mod_time_con l1 l2 s s g i rfl hl
  · intro s l1 l2 g i hl
    exact FlipBotV2.run_snapshots_only l1 l2 s g i hl

/-- Witness for C9 at a concrete aggressive engine: replaying one fixed run
is literally identical, and the same run executed at clock 1 vs clock 2
yields the same outcomes and `eraseTimes`-identical final states. -/
theorem C9_determinism_under_fixed_rng_witness :
    AggressiveBot.run (AggressiveBot.mkDefault 10000) [(snapAgg, 1)] gZero 0 =
      AggressiveBot.run (AggressiveBot.mkDefault 10000) [(snapAgg, 1)] gZero 0 ∧
    (AggressiveBot.run (AggressiveBot.mkDefault 10000) [(snapAgg, 1)] gZero 0).2 =
      (AggressiveBot.run (AggressiveBot.mkDefault 10000) [(snapAgg, 2)] gZero 0).2 ∧
    (AggressiveBot.run (AggressiveBot.mkDefault 10000) [(snapAgg, 1)] gZero 0).1.eraseTimes =
      (AggressiveBot.run (AggressiveBot.mkDefault 10000) [(snapAgg, 2)] gZero 0).1.eraseTimes :=
  ⟨C9_determinism_under_fixed_rng.1 _ _ _ _ _ _ _ _ rfl rfl rfl rfl,
    C9_determinism_under_fixed_rng.2.2.2.1 (AggressiveBot.mkDefault 10000)
      [(snapAgg, 1)] [(snapAgg, 2)] gZero 0 rfl⟩

/-- Counterexample to C9 as stated: the RNG is NOT the only external source
of variation between runs — `datetime.utcnow()` is stamped into every
appended trade record.  Two aggressive runs with identical RNG draws and
identical snapshots, executed at clock 1 and clock 2, return the same
outcomes and capital but different final states: their single trade records
carry timestamps 1 vs 2. -/
theorem C9_counterexample_timestamps_vary :
    (AggressiveBot.run (AggressiveBot.mkDefault 10000) [(snapAgg, 1)] gZero 0).2 =
      (AggressiveBot.run (AggressiveBot.mkDefault 10000) [(snapAgg, 2)] gZero 0).2 ∧
    (AggressiveBot.run (AggressiveBot.mkDefault 10000) [(snapAgg, 1)] gZero 0).1.capital =
      (AggressiveBot.run (AggressiveBot.mkDefault 10000) [(snapAgg, 2)] gZero 0).1.capital ∧
    (AggressiveBot.run (AggressiveBot.mkDefault 10000) [(snapAgg, 1)] gZero 0).1.trade_history.map
        ATradeRecord.time = [1] ∧
    (AggressiveBot.run (AggressiveBot.mkDefault 10000) [(snapAgg, 2)] gZero 0).1.trade_history.map
        ATradeRecord.time = [2] ∧
    (AggressiveBot.run (AggressiveBot.mkDefault 10000) [(snapAgg, 1)] gZero 0).1 ≠
      (AggressiveBot.run (AggressiveBot.mkDefault 10000) [(snapAgg, 2)] gZero 0).1 := by
  have hmod := AggressiveBot.run_mod_time_agg [(snapAgg, 1)] [(snapAgg, 2)]
    (AggressiveBot.mkDefault 10000) (AggressiveBot.mkDefault 10000) gZero 0 rfl rfl
  have hrun1 : (AggressiveBot.run (AggressiveBot.mkDefault 10000) [(snapAgg, 1)] gZero 0).1 =
      (AggressiveBot.trade (AggressiveBot.mkDefault 10000) snapAgg gZero 0 1).1 := rfl
  have hrun2 : (AggressiveBot.run (AggressiveBot.mkDefault 10000) [(snapAgg, 2)] gZero 0).1 =
      (AggressiveBot.trade (AggressiveBot.mkDefault 10000) snapAgg gZero 0 2).1 := rfl
  have ht1 : (AggressiveBot.trade (AggressiveBot.mkDefault 10000) snapAgg gZero 0 1).1.trade_history.map
      ATradeRecord.time = [1] := by
    norm_num [AggressiveBot.trade, AggressiveBot.calculate_position_size,
      AggressiveBot.position_factors, AggressiveBot.signal_ok, AggressiveBot.current_dd,
      AggressiveBot.mkDefault, AggressiveBot.regime_success_adj,
      AggressiveBot.regime_leverage, AggressiveBot.regime_profit_mult,
      abs_of_nonneg, regime_tb_ne_sideways, snapAgg, gZero, ATradeRecord.time]
  have ht2 : (AggressiveBot.trade (AggressiveBot.mkDefault 10000) snapAgg gZero 0 2).1.trade_history.map
      ATradeRecord.time = [2] := by
    norm_num [AggressiveBot.trade, AggressiveBot.calculate_position_size,
      AggressiveBot.position_factors, AggressiveBot.signal_ok, AggressiveBot.current_dd,
      AggressiveBot.mkDefault, AggressiveBot.regime_success_adj,
      AggressiveBot.regime_leverage, AggressiveBot.regime_profit_mult,
      abs_of_nonneg, regime_tb_ne_sideways, snapAgg, gZero, ATradeRecord.time]
  refine ⟨hmod.1, ?_, ?_, ?_, ?_⟩
  · have := congrArg AggressiveBot.capital hmod.2
    exact this
  · rw [hrun1]; exact ht1
  · rw [hrun2]; exact ht2
  · intro heq
    have hcontra := congrArg (fun s => s.trade_history.map ATradeRecord.time) heq
    rw [hrun1, hrun2] at hcontra
    simp only [ht1, ht2] at hcontra
    exact absurd hcontra (by simp)

theorem AggressiveBot.signal_ok_confidence (d : MetricsSnapshot)
    (h : AggressiveBot.signal_ok d = true) : d.ai_confidence.getD 0.5 > 0.6 := by
  simp only [AggressiveBot.signal_ok] at h
  split_ifs at h <;>
    (simp only [decide_eq_true_eq] at h; exact h.2.2.2.2.1)

theorem ConservativeBot.can_trade_confidence (s : ConservativeBot) (d : MetricsSnapshot)
    (h : s.can_trade d = true) : d.ai_confidence.getD 0.5 ≥ s.min_confidence := by
  simp only [ConservativeBot.can_trade, decide_eq_true_eq] at h
  exact h.2.2.2.1

theorem FlipBotV2.check_signal_confidence (d : MetricsSnapshot)
    (h : FlipBotV2.check_signal d = true) : d.ai_confidence.getD 0.5 > 0.6 := by
  simp only [FlipBotV2.check_signal, decide_eq_true_eq] at h
  exact h.2.2.1

theorem AggressiveBot.regime_profit_mult_pos (r : Regime) :
    0 < AggressiveBot.regime_profit_mult r := by
  cases r <;> norm_num [AggressiveBot.regime_profit_mult]

theorem ConservativeBot.regime_profit_adj_pos (r : Regime) :
    0 < ConservativeBot.regime_profit_adj r := by
  cases r <;> norm_num [ConservativeBot.regime_profit_adj]

theorem AggressiveBot.trade_capital_pos_agg (s : AggressiveBot) (d : MetricsSnapshot)
    (g : ℕ → ℚ) (i t : ℕ) (hg : ∀ n, 0 ≤ g n ∧ g n < 1) (hc : 0 < s.capital) :
    0 < (AggressiveBot.trade s d g i t).1.capital := by
  have hsz := AggressiveBot.size_bounds_agg s d (le_of_lt hc)
  have hsznn : 0 ≤ (s.calculate_position_size d).2 :=
    le_trans (mul_nonneg (le_of_lt hc) (by norm_num)) hsz.1
  simp only [AggressiveBot.trade]
  split_ifs with h1 h2 h3 h4 h5
  · exact hc
  · exact hc
  · -- WIN branch, new peak
    simp only [AggressiveBot.sized_capital, AggressiveBot.sized_consecutive_wins]
    refine add_pos_of_pos_of_nonneg hc ?_
    refine mul_nonneg hsznn ?_
    refine le_min (by norm_num) ?_
    refine mul_nonneg (mul_nonneg (mul_nonneg (mul_nonneg ?_ ?_) ?_) ?_) ?_
    · nlinarith [(hg (i + 1)).1]
    · nlinarith [AggressiveBot.signal_ok_confidence d h3]
    · positivity
    · positivity
    · exact le_of_lt (AggressiveBot.regime_profit_mult_pos _)
  · -- WIN branch, peak unchanged
    simp only [AggressiveBot.sized_capital, AggressiveBot.sized_consecutive_wins]
    refine add_pos_of_pos_of_nonneg hc ?_
    refine mul_nonneg hsznn ?_
    refine le_min (by norm_num) ?_
    refine mul_nonneg (mul_nonneg (mul_nonneg (mul_nonneg ?_ ?_) ?_) ?_) ?_
    · nlinarith [(hg (i + 1)).1]
    · nlinarith [AggressiveBot.signal_ok_confidence d h3]
    · positivity
    · positivity
    · exact le_of_lt (AggressiveBot.regime_profit_mult_pos _)
  · -- LOSS branch
    simp only [AggressiveBot.sized_capital, AggressiveBot.sized_stop_loss]
    have hlp : min 0.06 (s.stop_loss *
        AggressiveBot.regime_loss_adj (d.regime.getD .unknown)) ≤ 0.06 :=
      min_le_left _ _
    have k1 : (s.calculate_position_size d).2 * min 0.06 (s.stop_loss *
        AggressiveBot.regime_loss_adj (d.regime.getD .unknown)) ≤
        (s.calculate_position_size d).2 * 0.06 :=
      mul_le_mul_of_nonneg_left hlp hsznn
    have k2 : (s.calculate_position_size d).2 * 0.06 ≤ s.capital * 0.20 * 0.06 :=
      mul_le_mul_of_nonneg_right hsz.2 (by norm_num)
    linarith
  · exact hc

theorem ConservativeBot.trade_capital_pos_con (s : ConservativeBot) (d : MetricsSnapshot)
    (g : ℕ → ℚ) (i t : ℕ) (hg : ∀ n, 0 ≤ g n ∧ g n < 1)
    (hmc : 0 ≤ s.min_confidence) (hc : 0 < s.capital) :
    0 < (ConservativeBot.trade s d g i t).1.capital := by
  have hsz := ConservativeBot.size_bounds_con s d (le_of_lt hc)
  have hsznn : 0 ≤ s.calculate_position_size d :=
    le_trans (mul_nonneg (le_of_lt hc) (by norm_num)) hsz.1
  simp only [ConservativeBot.trade]
  split_ifs with h1 h2 h3 h4 h5 h6
  · exact hc
  · exact hc
  · exact hc
  · -- WIN branch, new peak
    have hconf : 0 ≤ d.ai_confidence.getD 0.5 :=
      le_trans hmc (ConservativeBot.can_trade_confidence s d h4)
    refine add_pos_of_pos_of_nonneg hc ?_
    refine mul_nonneg hsznn ?_
    refine le_min (by norm_num) ?_
    refine mul_nonneg (mul_nonneg ?_ ?_) ?_
    · nlinarith [(hg (i + 1)).1]
    · nlinarith
    · exact le_of_lt (ConservativeBot.regime_profit_adj_pos _)
  · -- WIN branch, peak unchanged
    have hconf : 0 ≤ d.ai_confidence.getD 0.5 :=
      le_trans hmc (ConservativeBot.can_trade_confidence s d h4)
    refine add_pos_of_pos_of_nonneg hc ?_
    refine mul_nonneg hsznn ?_
    refine le_min (by norm_num) ?_
    refine mul_nonneg (mul_nonneg ?_ ?_) ?_
    · nlinarith [(hg (i + 1)).1]
    · nlinarith
    · exact le_of_lt (ConservativeBot.regime_profit_adj_pos _)
  · -- LOSS branch
    have hlp : min 0.008 (s.stop_loss *
        ConservativeBot.regime_loss_adj (d.regime.getD .unknown)) ≤ 0.008 :=
      min_le_left _ _
    have k1 : s.calculate_position_size d * min 0.008 (s.stop_loss *
        ConservativeBot.regime_loss_adj (d.regime.getD .unknown)) ≤
        s.calculate_position_size d * 0.008 :=
      mul_le_mul_of_nonneg_left hlp hsznn
    have k2 : s.calculate_position_size d * 0.008 ≤ s.capital * 0.02 * 0.008 :=
      mul_le_mul_of_nonneg_right hsz.2 (by norm_num)
    linarith
  · exact hc

theorem FlipBotV2.trade_capital_pos_flip (s : FlipBotV2) (d : MetricsSnapshot)
    (g : ℕ → ℚ) (i t : ℕ) (hg : ∀ n, 0 ≤ g n ∧ g n < 1)
    (hm : s.max_position_size = 0.35) (hc : 0 < s.capital) :
    0 < (FlipBotV2.trade s d g i t).1.capital := by
  have hsz := FlipBotV2.size_bounds_flip s d (le_of_lt hc) hm
  have hsznn : 0 ≤ s.calculate_position_size d :=
    le_trans (mul_nonneg (le_of_lt hc) (by norm_num)) hsz.1
  simp only [FlipBotV2.trade]
  split_ifs with h1 h2 h3 h4 h5 h6
  · exact hc
  · exact hc
  · exact hc
  · -- WIN branch, new peak
    have hconf := FlipBotV2.check_signal_confidence d h4
    refine add_pos_of_pos_of_nonneg hc ?_
    refine mul_nonneg hsznn ?_
    refine le_min (by norm_num) ?_
    refine mul_nonneg ?_ ?_
    · nlinarith [(hg (i + 1)).1]
    · nlinarith
  · -- WIN branch, peak unchanged
    have hconf := FlipBotV2.check_signal_confidence d h4
    refine add_pos_of_pos_of_nonneg hc ?_
    refine mul_nonneg hsznn ?_
    refine le_min (by norm_num) ?_
    refine mul_nonneg ?_ ?_
    · nlinarith [(hg (i + 1)).1]
    · nlinarith
  · -- LOSS branch
    have hlp : min 0.04 (s.stop_loss * (0.8 + g (i + 1) * (1.2 - 0.8))) ≤ 0.04 :=
      min_le_left _ _
    have k1 : s.calculate_position_size d * min 0.04 (s.stop_loss *
        (0.8 + g (i + 1) * (1.2 - 0.8))) ≤ s.calculate_position_size d * 0.04 :=
      mul_le_mul_of_nonneg_left hlp hsznn
    have k2 : s.calculate_position_size d * 0.04 ≤ s.capital * 0.35 * 0.04 :=
      mul_le_mul_of_nonneg_right hsz.2 (by norm_num)
    linarith
  · exact hc

theorem ConservativeBot.trade_min_confidence (s : ConservativeBot) (d : MetricsSnapshot)
    (g : ℕ → ℚ) (i t : ℕ) :
    (ConservativeBot.trade s d g i t).1.min_confidence = s.min_confidence := by
  simp only [ConservativeBot.trade]
  split_ifs <;> rfl

theorem FlipBotV2.trade_max_position_size (s : FlipBotV2) (d : MetricsSnapshot)
    (g : ℕ → ℚ) (i t : ℕ) :
    (FlipBotV2.trade s d g i t).1.max_position_size = s.max_position_size := by
  simp only [FlipBotV2.trade]
  split_ifs <;> rfl

theorem AggressiveBot.run_capital_pos_agg (s : AggressiveBot)
    (l : List (MetricsSnapshot × ℕ)) (g : ℕ → ℚ) (i : ℕ)
    (hg : ∀ n, 0 ≤ g n ∧ g n < 1) (hc : 0 < s.capital) :
    0 < (AggressiveBot.run s l g i).1.capital := by
  induction l generalizing s i with
  | nil => exact hc
  | cons hd tl ih =>
    obtain ⟨d, t⟩ := hd
    exact ih _ _ (AggressiveBot.trade_capital_pos_agg s d g i t hg hc)

theorem ConservativeBot.run_capital_pos_con (s : ConservativeBot)
    (l : List (MetricsSnapshot × ℕ)) (g : ℕ → ℚ) (i : ℕ)
    (hg : ∀ n, 0 ≤ g n ∧ g n < 1) (hmc : 0 ≤ s.min_confidence) (hc : 0 < s.capital) :
    0 < (ConservativeBot.run s l g i).1.capital := by
  induction l generalizing s i with
  | nil => exact hc
  | cons hd tl ih =>
    obtain ⟨d, t⟩ := hd
    exact ih _ _
      (by rw [ConservativeBot.trade_min_confidence]; exact hmc)
      (ConservativeBot.trade_capital_pos_con s d g i t hg hmc hc)

theorem FlipBotV2.run_capital_pos_flip (s : FlipBotV2)
    (l : List (MetricsSnapshot × ℕ)) (g : ℕ → ℚ) (i : ℕ)
    (hg : ∀ n, 0 ≤ g n ∧ g n < 1) (hm : s.max_position_size = 0.35) (hc : 0 < s.capital) :
    0 < (FlipBotV2.run s l g i).1.capital := by
  induction l generalizing s i with
  | nil => exact hc
  | cons hd tl ih =>
    obtain ⟨d, t⟩ := hd
    exact ih _ _
      (by rw [FlipBotV2.trade_max_position_size]; exact hm)
      (FlipBotV2.trade_capital_pos_flip s d g i t hg hm hc)

/-- C10: capital stays strictly positive through any sequence of `trade`
calls on any engine started with positive capital, because every loss is
clamped: at most 20%·6% = 1.2% of capital (aggressive), 2%·0.8% = 0.016%
(conservative), 35%·4% = 1.4% (flip) per trade, and every WIN adds a
non-negative profit.  The draw-stream hypothesis says each `random.random()`
value lies in [0, 1); `min_confidence ≥ 0` holds for every conservative
construction with the default (0.8) or any non-negative override, and flip's
`max_position_size` is hardcoded to 0.35.  In particular capital never
reaches 0, the post-trade divisions by `capital` are safe, and drawdown
cannot reach 100% through trading alone. -/
theorem C10_capital_stays_positive :
    (∀ (s : AggressiveBot) (l : List (MetricsSnapshot × ℕ)) (g : ℕ → ℚ) (i : ℕ),
      (∀ n, 0 ≤ g n ∧ g n < 1) → 0 < s.capital →
      0 < (AggressiveBot.run s l g i).1.capital) ∧
    (∀ (s : ConservativeBot) (l : List (MetricsSnapshot × ℕ)) (g : ℕ → ℚ) (i : ℕ),
      (∀ n, 0 ≤ g n ∧ g n < 1) → 0 ≤ s.min_confidence → 0 < s.capital →
      0 < (ConservativeBot.run s l g i).1.capital) ∧
    (∀ (s : FlipBotV2) (l : List (MetricsSnapshot × ℕ)) (g : ℕ → ℚ) (i : ℕ),
      (∀ n, 0 ≤ g n ∧ g n < 1) → s.max_position_size = 0.35 → 0 < s.capital →
      0 < (FlipBotV2.run s l g i).1.capital) :=
  ⟨AggressiveBot.run_capital_pos_agg, ConservativeBot.run_capital_pos_con,
    FlipBotV2.run_capital_pos_flip⟩

/-- Witness for C10: concrete two-trade runs (one forced WIN, one forced
LOSS) from freshly constructed engines keep capital positive. -/
theorem C10_capital_stays_positive_witness :
    0 < (AggressiveBot.run (AggressiveBot.mkDefault 10000)
      [(snapAgg, 1), (snapAgg, 2)] gNine 0).1.capital ∧
    0 < (ConservativeBot.run (ConservativeBot.mkDefault 10000)
      [(snapCon, 1), (snapCon, 2)] gNine 0).1.capital ∧
    0 < (FlipBotV2.run (FlipBotV2.mkDefault 10000)
      [(snapFlip, 1), (snapFlip, 2)] gNine 0).1.capital :=
  ⟨C10_capital_stays_positive.1 (AggressiveBot.mkDefault 10000)
      [(snapAgg, 1), (snapAgg, 2)] gNine 0
      (fun n => by norm_num [gNine]) (by norm_num [AggressiveBot.mkDefault]),
    C10_capital_stays_positive.2.1 (ConservativeBot.mkDefault 10000)
      [(snapCon, 1), (snapCon, 2)] gNine 0
      (fun n => by norm_num [gNine]) (by norm_num [ConservativeBot.mkDefault])
      (by norm_num [ConservativeBot.mkDefault]),
    C10_capital_stays_positive.2.2 (FlipBotV2.mkDefault 10000)
      [(snapFlip, 1), (snapFlip, 2)] gNine 0
      (fun n => by norm_num [gNine]) rfl (by norm_num [FlipBotV2.mkDefault])⟩
